import Mathlib

/-!
Verification of the collection-and-translation routine of the restake/bitcoin-exporter
repository (src/serve.rs), as a shallow embedding in Lean 4.

Modelling conventions:
* Remote-call errors carry only their display string (`Err`), matching how the
  code surfaces an error (`e.to_string()`).
* `f64` metric values are modelled as exact rationals; integer fields are `Nat`
  (or `Int` for timestamps) and are cast into the rational-valued sink when set,
  mirroring the `as f64` casts in the source.
* The process-wide prometheus registry is modelled as an explicit `Sink` record;
  plain gauges and counters are rational fields, labeled gauge vectors
  (`with_label_values`) are association lists from label-value tuples to values,
  where setting an existing label tuple overwrites and a new tuple appends.
* The `?` operator on a `Result` with already-applied global mutations is
  modelled by threading the `Sink` explicitly: on error the partially updated
  sink is returned together with the error (no rollback).
* `Amount` (bitcoin smallest-unit quantity) is its satoshi count; `to_sat` is
  the identity on that count and `to_btc` divides by 10^8, as in the library.
-/

namespace BitcoinExporter

/-- A remote-call failure, identified by its display string. -/
abbrev Err := String

/-- A bitcoin amount, represented by its satoshi count (the library's internal
representation). -/
abbrev Amount := Nat

/-- The integer smallest-unit (satoshi) representation of an amount. -/
def Amount.to_sat (a : Amount) : Nat := a

/-- The decimal-currency (BTC) representation of an amount. -/
def Amount.to_btc (a : Amount) : ℚ := (a : ℚ) / 100000000

/-- The polymorphic warnings field: a single string or a list of strings
(bitcoincore_rpc_json::StringOrStringArray). -/
inductive StringOrStringArray where
  | string (value : String)
  | stringArray (values : List String)
  deriving DecidableEq

/-- The fields of the get_network_info response used by the collector. -/
structure NetworkInfo where
  version : Nat
  protocol_version : Nat
  connections : Nat
  connections_in : Option Nat
  connections_out : Option Nat
  warnings : StringOrStringArray
  deriving DecidableEq

/-- The fields of the get_blockchain_info response used by the collector.
The chain field is kept as the string its to_core_arg rendering produces. -/
structure BlockchainInfo where
  blocks : Nat
  difficulty : ℚ
  size_on_disk : Nat
  verification_progress : ℚ
  chain : String
  best_block_hash : String
  deriving DecidableEq

/-- The field of the get_block_info response used by the collector. -/
structure BlockInfo where
  height : Nat
  deriving DecidableEq

/-- The fields of the get_block_stats response used by the collector. -/
structure BlockStats where
  total_size : Nat
  txs : Nat
  height : Nat
  total_weight : Nat
  ins : Nat
  outs : Nat
  total_out : Amount
  total_fee : Amount
  deriving DecidableEq

/-- The estimate_smart_fee response: the fee-rate estimate may legitimately be
absent (insufficient data), which is distinct from a remote-call error. -/
structure EstimateSmartFee where
  fee_rate : Option Amount
  deriving DecidableEq

/-- One entry of the list_banned response. -/
structure BanEntry where
  address : String
  ban_created : Int
  banned_until : Int
  deriving DecidableEq

/-- One entry of the get_chain_tips response; the collector only counts them. -/
structure ChainTip where
  height : Nat
  hash : String
  deriving DecidableEq

/-- The fields of the get_mempool_info response used by the collector. -/
structure MempoolInfo where
  bytes : Nat
  size : Nat
  usage : Nat
  unbroadcast_count : Option Nat
  deriving DecidableEq

/-- The fields of the get_net_totals response used by the collector. -/
structure NetTotals where
  total_bytes_recv : Nat
  total_bytes_sent : Nat
  deriving DecidableEq

/-- The remote status client: one operation per remote procedure call, each
returning a typed snapshot or a failure. Parameterised operations are
functions of their argument. -/
structure Rpc where
  get_network_info : Except Err NetworkInfo
  get_blockchain_info : Except Err BlockchainInfo
  uptime : Except Err Nat
  get_block_info : String → Except Err BlockInfo
  get_block_stats : Nat → Except Err BlockStats
  estimate_smart_fee : Nat → Except Err EstimateSmartFee
  get_network_hash_ps : Nat → Except Err ℚ
  list_banned : Except Err (List BanEntry)
  get_chain_tips : Except Err (List ChainTip)
  get_mempool_info : Except Err MempoolInfo
  get_net_totals : Except Err NetTotals

/-- A labeled gauge vector: an association list from label-value tuples to the
latest value set for that tuple. -/
abbrev LabeledGauge := List (List String × ℚ)

/-- Setting a labeled gauge (with_label_values(labels).set(v)): overwrite the
series with that exact label tuple if it exists, otherwise append a new one. -/
def setLabeled : LabeledGauge → List String → ℚ → LabeledGauge
  | [], labels, v => [(labels, v)]
  | (k, w) :: rest, labels, v =>
    if k = labels then (k, v) :: rest else (k, w) :: setLabeled rest labels v

/-- The metric sink: the process-wide prometheus registry restricted to the
series this exporter registers. Gauges and the warnings counter are rational
values; the three labeled metrics are labeled gauge vectors. -/
structure Sink where
  blocks : ℚ := 0
  difficulty : ℚ := 0
  size_on_disk : ℚ := 0
  verification_progress : ℚ := 0
  uptime : LabeledGauge := []
  latest_block_size : ℚ := 0
  latest_block_txs : ℚ := 0
  latest_block_height : ℚ := 0
  latest_block_weight : ℚ := 0
  latest_block_inputs : ℚ := 0
  latest_block_outputs : ℚ := 0
  latest_block_value : ℚ := 0
  latest_block_fee : ℚ := 0
  peers : ℚ := 0
  conn_in : ℚ := 0
  conn_out : ℚ := 0
  warnings : ℚ := 0
  smart_fee_2 : ℚ := 0
  smart_fee_3 : ℚ := 0
  smart_fee_5 : ℚ := 0
  smart_fee_20 : ℚ := 0
  hashps : ℚ := 0
  hashps_1 : ℚ := 0
  ban_created : LabeledGauge := []
  banned_until : LabeledGauge := []
  num_chaintips : ℚ := 0
  mempool_bytes : ℚ := 0
  mempool_size : ℚ := 0
  mempool_usage : ℚ := 0
  mempool_unbroadcast : ℚ := 0
  total_bytes_recv : ℚ := 0
  total_bytes_sent : ℚ := 0
  deriving DecidableEq

/-- The constant reason label used for every ban-list series. -/
def reasonLabel : String := "manually added"

/-- The body of the ban-list loop: set the ban-creation and ban-expiry gauges
labeled by the entry's address and the constant reason string. -/
def applyBan (s : Sink) (ban : BanEntry) : Sink :=
  let s := { s with
    ban_created := setLabeled s.ban_created [ban.address, reasonLabel] (ban.ban_created : ℚ) }
  { s with
    banned_until := setLabeled s.banned_until [ban.address, reasonLabel] (ban.banned_until : ℚ) }

/-- The collection routine (get_metrics in src/serve.rs): the ordered sequence
of remote calls and sink updates. Each failed call short-circuits, returning
the error together with the sink as mutated so far (partial application is
kept). The order of the matches and updates mirrors the source line by line. -/
def get_metrics (rpc : Rpc) (s : Sink) : Except Err Unit × Sink :=
  match rpc.get_network_info with
  | .error e => (.error e, s)
  | .ok networkinfo =>
  match rpc.get_blockchain_info with
  | .error e => (.error e, s)
  | .ok blockchaininfo =>
  let s := { s with
    blocks := (blockchaininfo.blocks : ℚ)
    difficulty := blockchaininfo.difficulty
    size_on_disk := (blockchaininfo.size_on_disk : ℚ)
    verification_progress := blockchaininfo.verification_progress }
  match rpc.uptime with
  | .error e => (.error e, s)
  | .ok uptime =>
  let s := { s with
    uptime := setLabeled s.uptime
      [toString networkinfo.version, toString networkinfo.protocol_version,
        blockchaininfo.chain] (uptime : ℚ) }
  match rpc.get_block_info blockchaininfo.best_block_hash with
  | .error e => (.error e, s)
  | .ok block_info =>
  match rpc.get_block_stats block_info.height with
  | .error e => (.error e, s)
  | .ok latest_blockstats =>
  let s := { s with
    latest_block_size := (latest_blockstats.total_size : ℚ)
    latest_block_txs := (latest_blockstats.txs : ℚ)
    latest_block_height := (latest_blockstats.height : ℚ)
    latest_block_weight := (latest_blockstats.total_weight : ℚ)
    latest_block_inputs := (latest_blockstats.ins : ℚ)
    latest_block_outputs := (latest_blockstats.outs : ℚ)
    latest_block_value := latest_blockstats.total_out.to_btc
    latest_block_fee := latest_blockstats.total_fee.to_btc }
  let s := { s with peers := (networkinfo.connections : ℚ) }
  let s := { s with
    conn_in := match networkinfo.connections_in with
      | some connections_in => (connections_in : ℚ)
      | none => s.conn_in }
  let s := { s with
    conn_out := match networkinfo.connections_out with
      | some connections_out => (connections_out : ℚ)
      | none => s.conn_out }
  let s := { s with
    warnings := match networkinfo.warnings with
      | .string value =>
          if ¬ value.isEmpty then s.warnings + 1 else s.warnings
      | .stringArray values => s.warnings + (values.length : ℚ) }
  match rpc.estimate_smart_fee 2 with
  | .error e => (.error e, s)
  | .ok smartfee2 =>
  let s := { s with
    smart_fee_2 := match smartfee2.fee_rate with
      | some fee_rate => (fee_rate.to_sat : ℚ)
      | none => s.smart_fee_2 }
  match rpc.estimate_smart_fee 3 with
  | .error e => (.error e, s)
  | .ok smartfee3 =>
  let s := { s with
    smart_fee_3 := match smartfee3.fee_rate with
      | some fee_rate => (fee_rate.to_sat : ℚ)
      | none => s.smart_fee_3 }
  match rpc.estimate_smart_fee 5 with
  | .error e => (.error e, s)
  | .ok smartfee5 =>
  let s := { s with
    smart_fee_5 := match smartfee5.fee_rate with
      | some fee_rate => (fee_rate.to_sat : ℚ)
      | none => s.smart_fee_5 }
  match rpc.estimate_smart_fee 20 with
  | .error e => (.error e, s)
  | .ok smartfee20 =>
  let s := { s with
    smart_fee_20 := match smartfee20.fee_rate with
      | some fee_rate => (fee_rate.to_sat : ℚ)
      | none => s.smart_fee_20 }
  match rpc.get_network_hash_ps 120 with
  | .error e => (.error e, s)
  | .ok hashps =>
  let s := { s with hashps := hashps }
  match rpc.get_network_hash_ps 1 with
  | .error e => (.error e, s)
  | .ok hashps1 =>
  let s := { s with hashps_1 := hashps1 }
  match rpc.list_banned with
  | .error e => (.error e, s)
  | .ok banned =>
  let s := banned.foldl applyBan s
  match rpc.get_chain_tips with
  | .error e => (.error e, s)
  | .ok chaintips =>
  let s := { s with num_chaintips := (chaintips.length : ℚ) }
  match rpc.get_mempool_info with
  | .error e => (.error e, s)
  | .ok mempool =>
  let s := { s with
    mempool_bytes := (mempool.bytes : ℚ)
    mempool_size := (mempool.size : ℚ)
    mempool_usage := (mempool.usage : ℚ)
    mempool_unbroadcast := ((mempool.unbroadcast_count.getD 0 : Nat) : ℚ) }
  match rpc.get_net_totals with
  | .error e => (.error e, s)
  | .ok netotals =>
  let s := { s with
    total_bytes_recv := (netotals.total_bytes_recv : ℚ)
    total_bytes_sent := (netotals.total_bytes_sent : ℚ) }
  (.ok (), s)

/-- The sink after the blockchain-info step: the four blockchain gauges set,
everything else as in s. The following afterX definitions spell out, step by
step, the cumulative sink state get_metrics has produced when each remote
call is reached; they are used to characterise exactly what a failure at
each position leaves behind. -/
def afterBlockchain (s : Sink) (bi : BlockchainInfo) : Sink :=
  { s with
    blocks := (bi.blocks : ℚ)
    difficulty := bi.difficulty
    size_on_disk := (bi.size_on_disk : ℚ)
    verification_progress := bi.verification_progress }

/-- The sink after the uptime step: additionally the labeled uptime gauge. -/
def afterUptime (s : Sink) (ni : NetworkInfo) (bi : BlockchainInfo)
    (up : Nat) : Sink :=
  let s := afterBlockchain s bi
  { s with
    uptime := setLabeled s.uptime
      [toString ni.version, toString ni.protocol_version, bi.chain]
      (up : ℚ) }

/-- The sink after the block-stats step: additionally the eight latest-block
gauges (the block-info call itself sets no gauge). -/
def afterBlockStats (s : Sink) (ni : NetworkInfo) (bi : BlockchainInfo)
    (up : Nat) (bs : BlockStats) : Sink :=
  let s := afterUptime s ni bi up
  { s with
    latest_block_size := (bs.total_size : ℚ)
    latest_block_txs := (bs.txs : ℚ)
    latest_block_height := (bs.height : ℚ)
    latest_block_weight := (bs.total_weight : ℚ)
    latest_block_inputs := (bs.ins : ℚ)
    latest_block_outputs := (bs.outs : ℚ)
    latest_block_value := bs.total_out.to_btc
    latest_block_fee := bs.total_fee.to_btc }

/-- The sink after the connection and warnings updates (no remote call in
between): additionally peers, the two optional connection gauges, and the
warnings counter movement. -/
def afterConnGauges (s : Sink) (ni : NetworkInfo) (bi : BlockchainInfo)
    (up : Nat) (bs : BlockStats) : Sink :=
  let s := afterBlockStats s ni bi up bs
  let s := { s with peers := (ni.connections : ℚ) }
  let s := { s with
    conn_in := match ni.connections_in with
      | some connections_in => (connections_in : ℚ)
      | none => s.conn_in }
  let s := { s with
    conn_out := match ni.connections_out with
      | some connections_out => (connections_out : ℚ)
      | none => s.conn_out }
  { s with
    warnings := match ni.warnings with
      | .string value =>
          if ¬ value.isEmpty then s.warnings + 1 else s.warnings
      | .stringArray values => s.warnings + (values.length : ℚ) }

/-- The sink after the horizon-2 fee step. -/
def afterFee2 (s : Sink) (ni : NetworkInfo) (bi : BlockchainInfo) (up : Nat)
    (bs : BlockStats) (f2 : EstimateSmartFee) : Sink :=
  let s := afterConnGauges s ni bi up bs
  { s with
    smart_fee_2 := match f2.fee_rate with
      | some fee_rate => (fee_rate.to_sat : ℚ)
      | none => s.smart_fee_2 }

/-- The sink after the horizon-3 fee step. -/
def afterFee3 (s : Sink) (ni : NetworkInfo) (bi : BlockchainInfo) (up : Nat)
    (bs : BlockStats) (f2 f3 : EstimateSmartFee) : Sink :=
  let s := afterFee2 s ni bi up bs f2
  { s with
    smart_fee_3 := match f3.fee_rate with
      | some fee_rate => (fee_rate.to_sat : ℚ)
      | none => s.smart_fee_3 }

/-- The sink after the horizon-5 fee step. -/
def afterFee5 (s : Sink) (ni : NetworkInfo) (bi : BlockchainInfo) (up : Nat)
    (bs : BlockStats) (f2 f3 f5 : EstimateSmartFee) : Sink :=
  let s := afterFee3 s ni bi up bs f2 f3
  { s with
    smart_fee_5 := match f5.fee_rate with
      | some fee_rate => (fee_rate.to_sat : ℚ)
      | none => s.smart_fee_5 }

/-- The sink after the horizon-20 fee step. -/
def afterFee20 (s : Sink) (ni : NetworkInfo) (bi : BlockchainInfo) (up : Nat)
    (bs : BlockStats) (f2 f3 f5 f20 : EstimateSmartFee) : Sink :=
  let s := afterFee5 s ni bi up bs f2 f3 f5
  { s with
    smart_fee_20 := match f20.fee_rate with
      | some fee_rate => (fee_rate.to_sat : ℚ)
      | none => s.smart_fee_20 }

/-- The sink after the 120-block hash-rate step. -/
def afterHash120 (s : Sink) (ni : NetworkInfo) (bi : BlockchainInfo)
    (up : Nat) (bs : BlockStats) (f2 f3 f5 f20 : EstimateSmartFee)
    (q120 : ℚ) : Sink :=
  { afterFee20 s ni bi up bs f2 f3 f5 f20 with hashps := q120 }

/-- The sink after the 1-block hash-rate step. -/
def afterHash1 (s : Sink) (ni : NetworkInfo) (bi : BlockchainInfo)
    (up : Nat) (bs : BlockStats) (f2 f3 f5 f20 : EstimateSmartFee)
    (q120 q1 : ℚ) : Sink :=
  { afterHash120 s ni bi up bs f2 f3 f5 f20 q120 with hashps_1 := q1 }

/-- The sink after the ban-list step. -/
def afterBanList (s : Sink) (ni : NetworkInfo) (bi : BlockchainInfo)
    (up : Nat) (bs : BlockStats) (f2 f3 f5 f20 : EstimateSmartFee)
    (q120 q1 : ℚ) (bans : List BanEntry) : Sink :=
  bans.foldl applyBan (afterHash1 s ni bi up bs f2 f3 f5 f20 q120 q1)

/-- The sink after the chain-tips step. -/
def afterChainTips (s : Sink) (ni : NetworkInfo) (bi : BlockchainInfo)
    (up : Nat) (bs : BlockStats) (f2 f3 f5 f20 : EstimateSmartFee)
    (q120 q1 : ℚ) (bans : List BanEntry) (tips : List ChainTip) : Sink :=
  { afterBanList s ni bi up bs f2 f3 f5 f20 q120 q1 bans with
    num_chaintips := (tips.length : ℚ) }

/-- The sink after the mempool step. -/
def afterMempool (s : Sink) (ni : NetworkInfo) (bi : BlockchainInfo)
    (up : Nat) (bs : BlockStats) (f2 f3 f5 f20 : EstimateSmartFee)
    (q120 q1 : ℚ) (bans : List BanEntry) (tips : List ChainTip)
    (mp : MempoolInfo) : Sink :=
  let s := afterChainTips s ni bi up bs f2 f3 f5 f20 q120 q1 bans tips
  { s with
    mempool_bytes := (mp.bytes : ℚ)
    mempool_size := (mp.size : ℚ)
    mempool_usage := (mp.usage : ℚ)
    mempool_unbroadcast := ((mp.unbroadcast_count.getD 0 : Nat) : ℚ) }

/-- HTTP request methods as the route check distinguishes them. -/
inductive HttpMethod where
  | GET
  | other (name : String)
  deriving DecidableEq

/-- An inbound HTTP request: hyper exposes the URI's path component separately
from its query component, and the handler reads only the method and the path. -/
structure Request where
  method : HttpMethod
  path : String
  query : Option String
  deriving DecidableEq

/-- A response body: empty, the rendered wire-format of a sink state, or a
plain-text error message. -/
inductive Body where
  | empty
  | rendered (s : Sink)
  | text (msg : String)
  deriving DecidableEq

/-- An HTTP response: status code, optional content-type header, body. -/
structure Response where
  status : Nat
  contentType : Option String
  body : Body
  deriving DecidableEq

/-- The content-type the prometheus TextEncoder declares (format_type). -/
def textEncoderFormatType : String := "text/plain; version=0.0.4"

/-- The scrape handler (serve_req in src/serve.rs). It returns in the same
Result type the source uses (ClientResult, here Except Err), so that the fact
that it never propagates an error is visible in the model: every branch
returns ok. Requests other than a GET of the metrics path get 404 with an empty body before the
collector is consulted; otherwise the collector runs and its outcome picks
the 200-with-rendered-sink or 404-with-error-text response. -/
def serve_req (req : Request) (rpc : Rpc) (s : Sink) :
    Except Err (Response × Sink) :=
  if req.method ≠ HttpMethod.GET ∨ req.path ≠ "/metrics" then
    .ok ({ status := 404, contentType := none, body := .empty }, s)
  else
    match get_metrics rpc s with
    | (.ok _, s₁) =>
        .ok ({ status := 200, contentType := some textEncoderFormatType,
               body := .rendered s₁ }, s₁)
    | (.error e, s₁) =>
        .ok ({ status := 404, contentType := some "text/plain",
               body := .text e }, s₁)

/-- The ban-list loop, projected onto the sink: folding applyBan over a list
only rewrites the two ban gauge vectors, each by the corresponding list-level
fold. -/
theorem foldl_applyBan (l : List BanEntry) (s : Sink) :
    l.foldl applyBan s =
    { s with
      ban_created := l.foldl
        (fun g b => setLabeled g [b.address, reasonLabel] (b.ban_created : ℚ))
        s.ban_created
      banned_until := l.foldl
        (fun g b => setLabeled g [b.address, reasonLabel] (b.banned_until : ℚ))
        s.banned_until } := by
  induction l generalizing s with
  | nil => rfl
  | cons b t ih => simp [List.foldl, applyBan, ih]

/-- All fifteen remote calls of one collection succeed, with the stated
response values; the block-info call is applied to the best-block hash the
blockchain-info response carries, and the block-stats call to the height the
block-info response carries, as in the source. -/
structure RpcOk (rpc : Rpc) (ni : NetworkInfo) (bi : BlockchainInfo) (up : Nat)
    (binfo : BlockInfo) (bs : BlockStats) (f2 f3 f5 f20 : EstimateSmartFee)
    (q120 q1 : ℚ) (bans : List BanEntry) (tips : List ChainTip)
    (mp : MempoolInfo) (nt : NetTotals) : Prop where
  network_info : rpc.get_network_info = .ok ni
  blockchain_info : rpc.get_blockchain_info = .ok bi
  uptime_ok : rpc.uptime = .ok up
  block_info : rpc.get_block_info bi.best_block_hash = .ok binfo
  block_stats : rpc.get_block_stats binfo.height = .ok bs
  fee2 : rpc.estimate_smart_fee 2 = .ok f2
  fee3 : rpc.estimate_smart_fee 3 = .ok f3
  fee5 : rpc.estimate_smart_fee 5 = .ok f5
  fee20 : rpc.estimate_smart_fee 20 = .ok f20
  hash120 : rpc.get_network_hash_ps 120 = .ok q120
  hash1 : rpc.get_network_hash_ps 1 = .ok q1
  banned : rpc.list_banned = .ok bans
  chain_tips : rpc.get_chain_tips = .ok tips
  mempool : rpc.get_mempool_info = .ok mp
  net_totals : rpc.get_net_totals = .ok nt

/-- Setting a label tuple that is not yet in a labeled gauge vector appends a
new series. -/
theorem setLabeled_not_mem (g : LabeledGauge) (k : List String) (v : ℚ)
    (h : k ∉ g.map Prod.fst) : setLabeled g k v = g ++ [(k, v)] := by
  induction g with
  | nil => rfl
  | cons p t ih =>
    simp only [List.map_cons, List.mem_cons] at h
    push_neg at h
    obtain ⟨h₁, h₂⟩ := h
    simp [setLabeled, Ne.symm h₁, ih h₂]

/-- Folding label-tuple sets over a list of ban entries with pairwise distinct
addresses, all fresh for the starting vector, appends one series per entry. -/
theorem foldl_setLabeled_fresh (f : BanEntry → ℚ) :
    ∀ (l : List BanEntry) (g : LabeledGauge),
    (l.map BanEntry.address).Nodup →
    (∀ b ∈ l, [b.address, reasonLabel] ∉ g.map Prod.fst) →
    l.foldl (fun g b => setLabeled g [b.address, reasonLabel] (f b)) g
      = g ++ l.map (fun b => ([b.address, reasonLabel], f b)) := by
  intro l
  induction l with
  | nil => intro g _ _; simp
  | cons b t ih =>
    intro g hnd hfresh
    simp only [List.map_cons, List.nodup_cons] at hnd
    have hb : [b.address, reasonLabel] ∉ g.map Prod.fst :=
      hfresh b (List.mem_cons_self b t)
    have hstep : setLabeled g [b.address, reasonLabel] (f b)
        = g ++ [([b.address, reasonLabel], f b)] := setLabeled_not_mem g _ _ hb
    have hfresh' : ∀ b' ∈ t,
        [b'.address, reasonLabel]
          ∉ (g ++ [([b.address, reasonLabel], f b)]).map Prod.fst := by
      intro b' hb'
      simp only [List.map_append, List.map_cons, List.map_nil,
        List.mem_append, List.mem_cons, List.not_mem_nil]
      push_neg
      refine ⟨hfresh b' (List.mem_cons_of_mem b hb'), ?_, not_false⟩
      intro hcontra
      have : b'.address = b.address := by
        simpa using congrArg (fun x => x.headI) hcontra
      exact hnd.1 (this ▸ List.mem_map_of_mem BanEntry.address hb')
    calc (b :: t).foldl
          (fun g b => setLabeled g [b.address, reasonLabel] (f b)) g
        = t.foldl (fun g b => setLabeled g [b.address, reasonLabel] (f b))
            (g ++ [([b.address, reasonLabel], f b)]) := by
          simp [List.foldl, hstep]
      _ = g ++ [([b.address, reasonLabel], f b)]
            ++ t.map (fun b => ([b.address, reasonLabel], f b)) :=
          ih _ hnd.2 hfresh'
      _ = g ++ (b :: t).map (fun b => ([b.address, reasonLabel], f b)) := by
          simp

/-- A concrete network-info snapshot with both optional connection counts
present and a non-empty single-string warnings field. -/
def niA : NetworkInfo :=
  { version := 260100, protocol_version := 70016, connections := 9,
    connections_in := some 4, connections_out := some 5,
    warnings := .string "warn" }

/-- A concrete network-info snapshot with both optional connection counts
absent and the empty single-string warnings field. -/
def niB : NetworkInfo :=
  { version := 250000, protocol_version := 70015, connections := 3,
    connections_in := none, connections_out := none,
    warnings := .string "" }

/-- A concrete network-info snapshot whose warnings field is a three-element
list of strings. -/
def niC : NetworkInfo :=
  { niA with warnings := .stringArray ["w1", "w2", "w3"] }

/-- A concrete blockchain-info snapshot. -/
def biA : BlockchainInfo :=
  { blocks := 800000, difficulty := 95, size_on_disk := 600000000,
    verification_progress := 1, chain := "main",
    best_block_hash := "besthash" }

/-- The block-info response for the best block. -/
def binfoA : BlockInfo := { height := 800000 }

/-- A concrete block-stats snapshot for the best block. -/
def bsA : BlockStats :=
  { total_size := 1500000, txs := 2500, height := 800000,
    total_weight := 4000000, ins := 6000, outs := 7000,
    total_out := 300, total_fee := 70 }

/-- Two concrete ban entries with distinct addresses. -/
def banA : BanEntry := { address := "1.2.3.4", ban_created := 100, banned_until := 200 }

/-- The second concrete ban entry. -/
def banB : BanEntry := { address := "5.6.7.8", ban_created := 300, banned_until := 400 }

/-- A concrete chain-tips response with two tips. -/
def tipsA : List ChainTip :=
  [{ height := 800000, hash := "besthash" }, { height := 799000, hash := "stale" }]

/-- A concrete mempool snapshot whose unbroadcast count is present. -/
def mpA : MempoolInfo := { bytes := 5000, size := 42, usage := 9000, unbroadcast_count := some 7 }

/-- A concrete mempool snapshot whose unbroadcast count is absent. -/
def mpB : MempoolInfo := { bytes := 5000, size := 42, usage := 9000, unbroadcast_count := none }

/-- A concrete net-totals snapshot. -/
def ntA : NetTotals := { total_bytes_recv := 123456, total_bytes_sent := 654321 }

/-- A remote client whose calls all succeed: fee estimates are present for
horizons 2 and 5 and absent for horizons 3 and 20, the optional connection
counts are present, the warnings field is a non-empty single string, the ban
list has two distinct addresses, and the unbroadcast count is present. -/
def rpcA : Rpc :=
  { get_network_info := .ok niA
    get_blockchain_info := .ok biA
    uptime := .ok 3600
    get_block_info := fun h =>
      if h = "besthash" then .ok binfoA else .error "block not found"
    get_block_stats := fun ht =>
      if ht = 800000 then .ok bsA else .error "stats not found"
    estimate_smart_fee := fun t =>
      if t = 2 then .ok { fee_rate := some 25 }
      else if t = 3 then .ok { fee_rate := none }
      else if t = 5 then .ok { fee_rate := some 10 }
      else .ok { fee_rate := none }
    get_network_hash_ps := fun w => if w = 120 then .ok 500 else .ok 77
    list_banned := .ok [banA, banB]
    get_chain_tips := .ok tipsA
    get_mempool_info := .ok mpA
    get_net_totals := .ok ntA }

/-- A remote client whose calls all succeed, complementary to rpcA: fee
estimates absent for horizons 2 and 5 and present for 3 and 20, optional
connection counts absent, empty single-string warnings, empty ban list,
absent unbroadcast count. -/
def rpcB : Rpc :=
  { rpcA with
    get_network_info := .ok niB
    estimate_smart_fee := fun t =>
      if t = 3 then .ok { fee_rate := some 4 }
      else if t = 20 then .ok { fee_rate := some 6 }
      else .ok { fee_rate := none }
    list_banned := .ok []
    get_mempool_info := .ok mpB }

/-- A remote client like rpcA but whose warnings field is a list of three
strings. -/
def rpcC : Rpc := { rpcA with get_network_info := .ok niC }

/-- A remote client whose blockchain-info call fails (and all other calls
behave as in rpcA). -/
def rpcFailBC : Rpc := { rpcA with get_blockchain_info := .error "boom" }

/-- A remote client whose net-totals call fails (the last call of a
collection; all other calls behave as in rpcA). -/
def rpcFailNT : Rpc := { rpcA with get_net_totals := .error "nt down" }

/-- A remote client whose fee-estimation call for the given horizon fails,
all other calls behaving as in rpcA. -/
def rpcFailFee (k : Nat) : Rpc :=
  { rpcA with
    estimate_smart_fee := fun t =>
      if t = k then .error "fee down" else rpcA.estimate_smart_fee t }

/-- A remote client whose block-info call fails. -/
def rpcFailBI : Rpc := { rpcA with get_block_info := fun _ => .error "bi down" }

/-- A remote client whose block-stats call fails. -/
def rpcFailBS : Rpc := { rpcA with get_block_stats := fun _ => .error "bs down" }

/-- A remote client whose network-info call fails. -/
def rpcFailNI : Rpc := { rpcA with get_network_info := .error "ni down" }

/-- A remote client whose uptime call fails. -/
def rpcFailUp : Rpc := { rpcA with uptime := .error "up down" }

/-- A remote client whose hash-rate call for the given window fails, all
other calls behaving as in rpcA. -/
def rpcFailHash (k : Nat) : Rpc :=
  { rpcA with
    get_network_hash_ps := fun w =>
      if w = k then .error "hash down" else rpcA.get_network_hash_ps w }

/-- A remote client whose ban-list call fails. -/
def rpcFailBanned : Rpc := { rpcA with list_banned := .error "ban down" }

/-- A remote client whose chain-tips call fails. -/
def rpcFailTips : Rpc := { rpcA with get_chain_tips := .error "tips down" }

/-- A remote client whose mempool-info call fails. -/
def rpcFailMP : Rpc := { rpcA with get_mempool_info := .error "mp down" }

/-- A remote client whose blockchain-info AND net-totals calls both fail:
the collection must report the earlier of the two. -/
def rpcFailBoth : Rpc :=
  { rpcFailBC with get_net_totals := .error "nt down" }

/-- A remote client like rpcA whose ban list holds two entries with the same
address. -/
def rpcDup : Rpc :=
  { rpcA with
    list_banned := .ok
      [{ address := "9.9.9.9", ban_created := 100, banned_until := 200 },
       { address := "9.9.9.9", ban_created := 300, banned_until := 400 }] }

/-- A freshly registered sink: all gauges and the counter at zero, all labeled
gauge vectors empty. -/
def sink0 : Sink := {}

/-- A sink carrying non-zero prior values on the gauges whose retention the
claims talk about, so that retention is distinguishable from zeroing. -/
def sink1 : Sink :=
  { sink0 with
    conn_in := 11, conn_out := 12, warnings := 2,
    smart_fee_2 := 21, smart_fee_3 := 31, smart_fee_5 := 51,
    smart_fee_20 := 71, mempool_unbroadcast := 5,
    total_bytes_recv := 9, total_bytes_sent := 10 }

set_option maxHeartbeats 1600000 in
/-- C1: if any remote call of a collection fails, no later step runs, the
updates already applied by earlier steps of the same invocation stay in the
sink (no rollback), and the invocation returns the first failure. One
conjunct per failure position, covering all fifteen remote calls in source
order; each conjunct constrains only the calls up to and including the
failing one, leaving every later call universally unconstrained, so the
returned error is the one of the FIRST failing call even when later calls
would fail too. Each conclusion is a full-state equality: the result pair is
exactly the failing call's error together with the afterX sink holding
precisely the earlier steps' updates, so retention of every applied update
and absence of every later update are both part of the statement. -/
theorem spec_c1 :
    (∀ (rpc : Rpc) (s : Sink) (e : Err),
      rpc.get_network_info = .error e →
      get_metrics rpc s = (.error e, s)) ∧
    (∀ (rpc : Rpc) (s : Sink) (ni : NetworkInfo) (e : Err),
      rpc.get_network_info = .ok ni →
      rpc.get_blockchain_info = .error e →
      get_metrics rpc s = (.error e, s)) ∧
    (∀ (rpc : Rpc) (s : Sink) (ni : NetworkInfo) (bi : BlockchainInfo)
       (e : Err),
      rpc.get_network_info = .ok ni →
      rpc.get_blockchain_info = .ok bi →
      rpc.uptime = .error e →
      get_metrics rpc s = (.error e, afterBlockchain s bi)) ∧
    (∀ (rpc : Rpc) (s : Sink) (ni : NetworkInfo) (bi : BlockchainInfo)
       (up : Nat) (e : Err),
      rpc.get_network_info = .ok ni →
      rpc.get_blockchain_info = .ok bi →
      rpc.uptime = .ok up →
      rpc.get_block_info bi.best_block_hash = .error e →
      get_metrics rpc s = (.error e, afterUptime s ni bi up)) ∧
    (∀ (rpc : Rpc) (s : Sink) (ni : NetworkInfo) (bi : BlockchainInfo)
       (up : Nat) (binfo : BlockInfo) (e : Err),
      rpc.get_network_info = .ok ni →
      rpc.get_blockchain_info = .ok bi →
      rpc.uptime = .ok up →
      rpc.get_block_info bi.best_block_hash = .ok binfo →
      rpc.get_block_stats binfo.height = .error e →
      get_metrics rpc s = (.error e, afterUptime s ni bi up)) ∧
    (∀ (rpc : Rpc) (s : Sink) (ni : NetworkInfo) (bi : BlockchainInfo)
       (up : Nat) (binfo : BlockInfo) (bs : BlockStats) (e : Err),
      rpc.get_network_info = .ok ni →
      rpc.get_blockchain_info = .ok bi →
      rpc.uptime = .ok up →
      rpc.get_block_info bi.best_block_hash = .ok binfo →
      rpc.get_block_stats binfo.height = .ok bs →
      rpc.estimate_smart_fee 2 = .error e →
      get_metrics rpc s = (.error e, afterConnGauges s ni bi up bs)) ∧
    (∀ (rpc : Rpc) (s : Sink) (ni : NetworkInfo) (bi : BlockchainInfo)
       (up : Nat) (binfo : BlockInfo) (bs : BlockStats)
       (f2 : EstimateSmartFee) (e : Err),
      rpc.get_network_info = .ok ni →
      rpc.get_blockchain_info = .ok bi →
      rpc.uptime = .ok up →
      rpc.get_block_info bi.best_block_hash = .ok binfo →
      rpc.get_block_stats binfo.height = .ok bs →
      rpc.estimate_smart_fee 2 = .ok f2 →
      rpc.estimate_smart_fee 3 = .error e →
      get_metrics rpc s = (.error e, afterFee2 s ni bi up bs f2)) ∧
    (∀ (rpc : Rpc) (s : Sink) (ni : NetworkInfo) (bi : BlockchainInfo)
       (up : Nat) (binfo : BlockInfo) (bs : BlockStats)
       (f2 f3 : EstimateSmartFee) (e : Err),
      rpc.get_network_info = .ok ni →
      rpc.get_blockchain_info = .ok bi →
      rpc.uptime = .ok up →
      rpc.get_block_info bi.best_block_hash = .ok binfo →
      rpc.get_block_stats binfo.height = .ok bs →
      rpc.estimate_smart_fee 2 = .ok f2 →
      rpc.estimate_smart_fee 3 = .ok f3 →
      rpc.estimate_smart_fee 5 = .error e →
      get_metrics rpc s = (.error e, afterFee3 s ni bi up bs f2 f3)) ∧
    (∀ (rpc : Rpc) (s : Sink) (ni : NetworkInfo) (bi : BlockchainInfo)
       (up : Nat) (binfo : BlockInfo) (bs : BlockStats)
       (f2 f3 f5 : EstimateSmartFee) (e : Err),
      rpc.get_network_info = .ok ni →
      rpc.get_blockchain_info = .ok bi →
      rpc.uptime = .ok up →
      rpc.get_block_info bi.best_block_hash = .ok binfo →
      rpc.get_block_stats binfo.height = .ok bs →
      rpc.estimate_smart_fee 2 = .ok f2 →
      rpc.estimate_smart_fee 3 = .ok f3 →
      rpc.estimate_smart_fee 5 = .ok f5 →
      rpc.estimate_smart_fee 20 = .error e →
      get_metrics rpc s = (.error e, afterFee5 s ni bi up bs f2 f3 f5)) ∧
    (∀ (rpc : Rpc) (s : Sink) (ni : NetworkInfo) (bi : BlockchainInfo)
       (up : Nat) (binfo : BlockInfo) (bs : BlockStats)
       (f2 f3 f5 f20 : EstimateSmartFee) (e : Err),
      rpc.get_network_info = .ok ni →
      rpc.get_blockchain_info = .ok bi →
      rpc.uptime = .ok up →
      rpc.get_block_info bi.best_block_hash = .ok binfo →
      rpc.get_block_stats binfo.height = .ok bs →
      rpc.estimate_smart_fee 2 = .ok f2 →
      rpc.estimate_smart_fee 3 = .ok f3 →
      rpc.estimate_smart_fee 5 = .ok f5 →
      rpc.estimate_smart_fee 20 = .ok f20 →
      rpc.get_network_hash_ps 120 = .error e →
      get_metrics rpc s = (.error e, afterFee20 s ni bi up bs f2 f3 f5 f20)) ∧
    (∀ (rpc : Rpc) (s : Sink) (ni : NetworkInfo) (bi : BlockchainInfo)
       (up : Nat) (binfo : BlockInfo) (bs : BlockStats)
       (f2 f3 f5 f20 : EstimateSmartFee) (q120 : ℚ) (e : Err),
      rpc.get_network_info = .ok ni →
      rpc.get_blockchain_info = .ok bi →
      rpc.uptime = .ok up →
      rpc.get_block_info bi.best_block_hash = .ok binfo →
      rpc.get_block_stats binfo.height = .ok bs →
      rpc.estimate_smart_fee 2 = .ok f2 →
      rpc.estimate_smart_fee 3 = .ok f3 →
      rpc.estimate_smart_fee 5 = .ok f5 →
      rpc.estimate_smart_fee 20 = .ok f20 →
      rpc.get_network_hash_ps 120 = .ok q120 →
      rpc.get_network_hash_ps 1 = .error e →
      get_metrics rpc s
        = (.error e, afterHash120 s ni bi up bs f2 f3 f5 f20 q120)) ∧
    (∀ (rpc : Rpc) (s : Sink) (ni : NetworkInfo) (bi : BlockchainInfo)
       (up : Nat) (binfo : BlockInfo) (bs : BlockStats)
       (f2 f3 f5 f20 : EstimateSmartFee) (q120 q1 : ℚ) (e : Err),
      rpc.get_network_info = .ok ni →
      rpc.get_blockchain_info = .ok bi →
      rpc.uptime = .ok up →
      rpc.get_block_info bi.best_block_hash = .ok binfo →
      rpc.get_block_stats binfo.height = .ok bs →
      rpc.estimate_smart_fee 2 = .ok f2 →
      rpc.estimate_smart_fee 3 = .ok f3 →
      rpc.estimate_smart_fee 5 = .ok f5 →
      rpc.estimate_smart_fee 20 = .ok f20 →
      rpc.get_network_hash_ps 120 = .ok q120 →
      rpc.get_network_hash_ps 1 = .ok q1 →
      rpc.list_banned = .error e →
      get_metrics rpc s
        = (.error e, afterHash1 s ni bi up bs f2 f3 f5 f20 q120 q1)) ∧
    (∀ (rpc : Rpc) (s : Sink) (ni : NetworkInfo) (bi : BlockchainInfo)
       (up : Nat) (binfo : BlockInfo) (bs : BlockStats)
       (f2 f3 f5 f20 : EstimateSmartFee) (q120 q1 : ℚ)
       (bans : List BanEntry) (e : Err),
      rpc.get_network_info = .ok ni →
      rpc.get_blockchain_info = .ok bi →
      rpc.uptime = .ok up →
      rpc.get_block_info bi.best_block_hash = .ok binfo →
      rpc.get_block_stats binfo.height = .ok bs →
      rpc.estimate_smart_fee 2 = .ok f2 →
      rpc.estimate_smart_fee 3 = .ok f3 →
      rpc.estimate_smart_fee 5 = .ok f5 →
      rpc.estimate_smart_fee 20 = .ok f20 →
      rpc.get_network_hash_ps 120 = .ok q120 →
      rpc.get_network_hash_ps 1 = .ok q1 →
      rpc.list_banned = .ok bans →
      rpc.get_chain_tips = .error e →
      get_metrics rpc s
        = (.error e, afterBanList s ni bi up bs f2 f3 f5 f20 q120 q1 bans)) ∧
    (∀ (rpc : Rpc) (s : Sink) (ni : NetworkInfo) (bi : BlockchainInfo)
       (up : Nat) (binfo : BlockInfo) (bs : BlockStats)
       (f2 f3 f5 f20 : EstimateSmartFee) (q120 q1 : ℚ)
       (bans : List BanEntry) (tips : List ChainTip) (e : Err),
      rpc.get_network_info = .ok ni →
      rpc.get_blockchain_info = .ok bi →
      rpc.uptime = .ok up →
      rpc.get_block_info bi.best_block_hash = .ok binfo →
      rpc.get_block_stats binfo.height = .ok bs →
      rpc.estimate_smart_fee 2 = .ok f2 →
      rpc.estimate_smart_fee 3 = .ok f3 →
      rpc.estimate_smart_fee 5 = .ok f5 →
      rpc.estimate_smart_fee 20 = .ok f20 →
      rpc.get_network_hash_ps 120 = .ok q120 →
      rpc.get_network_hash_ps 1 = .ok q1 →
      rpc.list_banned = .ok bans →
      rpc.get_chain_tips = .ok tips →
      rpc.get_mempool_info = .error e →
      get_metrics rpc s
        = (.error e,
            afterChainTips s ni bi up bs f2 f3 f5 f20 q120 q1 bans tips)) ∧
    (∀ (rpc : Rpc) (s : Sink) (ni : NetworkInfo) (bi : BlockchainInfo)
       (up : Nat) (binfo : BlockInfo) (bs : BlockStats)
       (f2 f3 f5 f20 : EstimateSmartFee) (q120 q1 : ℚ)
       (bans : List BanEntry) (tips : List ChainTip) (mp : MempoolInfo)
       (e : Err),
      rpc.get_network_info = .ok ni →
      rpc.get_blockchain_info = .ok bi →
      rpc.uptime = .ok up →
      rpc.get_block_info bi.best_block_hash = .ok binfo →
      rpc.get_block_stats binfo.height = .ok bs →
      rpc.estimate_smart_fee 2 = .ok f2 →
      rpc.estimate_smart_fee 3 = .ok f3 →
      rpc.estimate_smart_fee 5 = .ok f5 →
      rpc.estimate_smart_fee 20 = .ok f20 →
      rpc.get_network_hash_ps 120 = .ok q120 →
      rpc.get_network_hash_ps 1 = .ok q1 →
      rpc.list_banned = .ok bans →
      rpc.get_chain_tips = .ok tips →
      rpc.get_mempool_info = .ok mp →
      rpc.get_net_totals = .error e →
      get_metrics rpc s
        = (.error e,
            afterMempool s ni bi up bs f2 f3 f5 f20 q120 q1 bans tips mp)) := by
  refine ⟨?_, ?_, ?_, ?_, ?_, ?_, ?_, ?_, ?_, ?_, ?_, ?_, ?_, ?_, ?_⟩
  · intro rpc s e h1
    simp only [get_metrics, h1]
  · intro rpc s ni e h1 h2
    simp only [get_metrics, h1, h2]
  · intro rpc s ni bi e h1 h2 h3
    simp only [get_metrics, h1, h2, h3]
    rfl
  · intro rpc s ni bi up e h1 h2 h3 h4
    simp only [get_metrics, h1, h2, h3, h4]
    rfl
  · intro rpc s ni bi up binfo e h1 h2 h3 h4 h5
    simp only [get_metrics, h1, h2, h3, h4, h5]
    rfl
  · intro rpc s ni bi up binfo bs e h1 h2 h3 h4 h5 h6
    simp only [get_metrics, h1, h2, h3, h4, h5, h6]
    rfl
  · intro rpc s ni bi up binfo bs f2 e h1 h2 h3 h4 h5 h6 h7
    simp only [get_metrics, h1, h2, h3, h4, h5, h6, h7]
    rfl
  · intro rpc s ni bi up binfo bs f2 f3 e h1 h2 h3 h4 h5 h6 h7 h8
    simp only [get_metrics, h1, h2, h3, h4, h5, h6, h7, h8]
    rfl
  · intro rpc s ni bi up binfo bs f2 f3 f5 e h1 h2 h3 h4 h5 h6 h7 h8 h9
    simp only [get_metrics, h1, h2, h3, h4, h5, h6, h7, h8, h9]
    rfl
  · intro rpc s ni bi up binfo bs f2 f3 f5 f20 e h1 h2 h3 h4 h5 h6 h7 h8 h9
      h10
    simp only [get_metrics, h1, h2, h3, h4, h5, h6, h7, h8, h9, h10]
    rfl
  · intro rpc s ni bi up binfo bs f2 f3 f5 f20 q120 e h1 h2 h3 h4 h5 h6 h7
      h8 h9 h10 h11
    simp only [get_metrics, h1, h2, h3, h4, h5, h6, h7, h8, h9, h10, h11]
    rfl
  · intro rpc s ni bi up binfo bs f2 f3 f5 f20 q120 q1 e h1 h2 h3 h4 h5 h6
      h7 h8 h9 h10 h11 h12
    simp only [get_metrics, h1, h2, h3, h4, h5, h6, h7, h8, h9, h10, h11,
      h12]
    rfl
  · intro rpc s ni bi up binfo bs f2 f3 f5 f20 q120 q1 bans e h1 h2 h3 h4 h5
      h6 h7 h8 h9 h10 h11 h12 h13
    simp only [get_metrics, h1, h2, h3, h4, h5, h6, h7, h8, h9, h10, h11,
      h12, h13]
    rfl
  · intro rpc s ni bi up binfo bs f2 f3 f5 f20 q120 q1 bans tips e h1 h2 h3
      h4 h5 h6 h7 h8 h9 h10 h11 h12 h13 h14
    simp only [get_metrics, h1, h2, h3, h4, h5, h6, h7, h8, h9, h10, h11,
      h12, h13, h14]
    rfl
  · intro rpc s ni bi up binfo bs f2 f3 f5 f20 q120 q1 bans tips mp e h1 h2
      h3 h4 h5 h6 h7 h8 h9 h10 h11 h12 h13 h14 h15
    simp only [get_metrics, h1, h2, h3, h4, h5, h6, h7, h8, h9, h10, h11,
      h12, h13, h14, h15]
    rfl

/-- C1 witness: one concrete failing client per failure position (the
fifteen rpcFail clients, each failing exactly one call of rpcA), each run
from sink1 with non-zero priors and shown to return that call's error with
exactly the earlier steps' updates applied; and rpcFailBoth, where both the
blockchain-info and the net-totals calls fail, returns the earlier (first)
failure. -/
theorem spec_c1_witness :
    (get_metrics rpcFailNI sink1 = (.error "ni down", sink1)) ∧
    (get_metrics rpcFailBC sink1 = (.error "boom", sink1)) ∧
    (get_metrics rpcFailUp sink1
      = (.error "up down", afterBlockchain sink1 biA)) ∧
    (get_metrics rpcFailBI sink1
      = (.error "bi down", afterUptime sink1 niA biA 3600)) ∧
    (get_metrics rpcFailBS sink1
      = (.error "bs down", afterUptime sink1 niA biA 3600)) ∧
    (get_metrics (rpcFailFee 2) sink1
      = (.error "fee down", afterConnGauges sink1 niA biA 3600 bsA)) ∧
    (get_metrics (rpcFailFee 3) sink1
      = (.error "fee down",
          afterFee2 sink1 niA biA 3600 bsA ⟨some 25⟩)) ∧
    (get_metrics (rpcFailFee 5) sink1
      = (.error "fee down",
          afterFee3 sink1 niA biA 3600 bsA ⟨some 25⟩ ⟨none⟩)) ∧
    (get_metrics (rpcFailFee 20) sink1
      = (.error "fee down",
          afterFee5 sink1 niA biA 3600 bsA ⟨some 25⟩ ⟨none⟩ ⟨some 10⟩)) ∧
    (get_metrics (rpcFailHash 120) sink1
      = (.error "hash down",
          afterFee20 sink1 niA biA 3600 bsA ⟨some 25⟩ ⟨none⟩ ⟨some 10⟩
            ⟨none⟩)) ∧
    (get_metrics (rpcFailHash 1) sink1
      = (.error "hash down",
          afterHash120 sink1 niA biA 3600 bsA ⟨some 25⟩ ⟨none⟩ ⟨some 10⟩
            ⟨none⟩ 500)) ∧
    (get_metrics rpcFailBanned sink1
      = (.error "ban down",
          afterHash1 sink1 niA biA 3600 bsA ⟨some 25⟩ ⟨none⟩ ⟨some 10⟩
            ⟨none⟩ 500 77)) ∧
    (get_metrics rpcFailTips sink1
      = (.error "tips down",
          afterBanList sink1 niA biA 3600 bsA ⟨some 25⟩ ⟨none⟩ ⟨some 10⟩
            ⟨none⟩ 500 77 [banA, banB])) ∧
    (get_metrics rpcFailMP sink1
      = (.error "mp down",
          afterChainTips sink1 niA biA 3600 bsA ⟨some 25⟩ ⟨none⟩ ⟨some 10⟩
            ⟨none⟩ 500 77 [banA, banB] tipsA)) ∧
    (get_metrics rpcFailNT sink1
      = (.error "nt down",
          afterMempool sink1 niA biA 3600 bsA ⟨some 25⟩ ⟨none⟩ ⟨some 10⟩
            ⟨none⟩ 500 77 [banA, banB] tipsA mpA)) ∧
    (get_metrics rpcFailBoth sink1 = (.error "boom", sink1)) := by
  obtain ⟨c1, c2, c3, c4, c5, c6, c7, c8, c9, c10, c11, c12, c13, c14, c15⟩
    := spec_c1
  exact ⟨c1 rpcFailNI sink1 "ni down" rfl,
    c2 rpcFailBC sink1 niA "boom" rfl rfl,
    c3 rpcFailUp sink1 niA biA "up down" rfl rfl rfl,
    c4 rpcFailBI sink1 niA biA 3600 "bi down" rfl rfl rfl rfl,
    c5 rpcFailBS sink1 niA biA 3600 binfoA "bs down" rfl rfl rfl rfl rfl,
    c6 (rpcFailFee 2) sink1 niA biA 3600 binfoA bsA "fee down" rfl rfl rfl
      rfl rfl rfl,
    c7 (rpcFailFee 3) sink1 niA biA 3600 binfoA bsA ⟨some 25⟩ "fee down"
      rfl rfl rfl rfl rfl rfl rfl,
    c8 (rpcFailFee 5) sink1 niA biA 3600 binfoA bsA ⟨some 25⟩ ⟨none⟩
      "fee down" rfl rfl rfl rfl rfl rfl rfl rfl,
    c9 (rpcFailFee 20) sink1 niA biA 3600 binfoA bsA ⟨some 25⟩ ⟨none⟩
      ⟨some 10⟩ "fee down" rfl rfl rfl rfl rfl rfl rfl rfl rfl,
    c10 (rpcFailHash 120) sink1 niA biA 3600 binfoA bsA ⟨some 25⟩ ⟨none⟩
      ⟨some 10⟩ ⟨none⟩ "hash down" rfl rfl rfl rfl rfl rfl rfl rfl rfl rfl,
    c11 (rpcFailHash 1) sink1 niA biA 3600 binfoA bsA ⟨some 25⟩ ⟨none⟩
      ⟨some 10⟩ ⟨none⟩ 500 "hash down" rfl rfl rfl rfl rfl rfl rfl rfl rfl
      rfl rfl,
    c12 rpcFailBanned sink1 niA biA 3600 binfoA bsA ⟨some 25⟩ ⟨none⟩
      ⟨some 10⟩ ⟨none⟩ 500 77 "ban down" rfl rfl rfl rfl rfl rfl rfl rfl
      rfl rfl rfl rfl,
    c13 rpcFailTips sink1 niA biA 3600 binfoA bsA ⟨some 25⟩ ⟨none⟩
      ⟨some 10⟩ ⟨none⟩ 500 77 [banA, banB] "tips down" rfl rfl rfl rfl rfl
      rfl rfl rfl rfl rfl rfl rfl rfl,
    c14 rpcFailMP sink1 niA biA 3600 binfoA bsA ⟨some 25⟩ ⟨none⟩ ⟨some 10⟩
      ⟨none⟩ 500 77 [banA, banB] tipsA "mp down" rfl rfl rfl rfl rfl rfl
      rfl rfl rfl rfl rfl rfl rfl rfl,
    c15 rpcFailNT sink1 niA biA 3600 binfoA bsA ⟨some 25⟩ ⟨none⟩ ⟨some 10⟩
      ⟨none⟩ 500 77 [banA, banB] tipsA mpA "nt down" rfl rfl rfl rfl rfl
      rfl rfl rfl rfl rfl rfl rfl rfl rfl rfl,
    c2 rpcFailBoth sink1 niA "boom" rfl rfl⟩

/-- C2: the warnings counter moves by exactly 0 on the single empty string,
by 1 on a single non-empty string, and by n on a list of n strings, for one
successful collection; and it never decreases across an invocation (last
conjunct, with no success hypothesis at all, so repetition keeps it
non-decreasing whatever the outcomes). -/
theorem spec_c2 :
    (∀ (rpc : Rpc) (s : Sink) (ni : NetworkInfo) (bi : BlockchainInfo)
       (up : Nat) (binfo : BlockInfo) (bs : BlockStats)
       (f2 f3 f5 f20 : EstimateSmartFee) (q120 q1 : ℚ)
       (bans : List BanEntry) (tips : List ChainTip) (mp : MempoolInfo)
       (nt : NetTotals),
      RpcOk rpc ni bi up binfo bs f2 f3 f5 f20 q120 q1 bans tips mp nt →
      ni.warnings = .string "" →
      (get_metrics rpc s).2.warnings = s.warnings) ∧
    (∀ (rpc : Rpc) (s : Sink) (ni : NetworkInfo) (bi : BlockchainInfo)
       (up : Nat) (binfo : BlockInfo) (bs : BlockStats)
       (f2 f3 f5 f20 : EstimateSmartFee) (q120 q1 : ℚ)
       (bans : List BanEntry) (tips : List ChainTip) (mp : MempoolInfo)
       (nt : NetTotals) (v : String),
      RpcOk rpc ni bi up binfo bs f2 f3 f5 f20 q120 q1 bans tips mp nt →
      ni.warnings = .string v → v ≠ "" →
      (get_metrics rpc s).2.warnings = s.warnings + 1) ∧
    (∀ (rpc : Rpc) (s : Sink) (ni : NetworkInfo) (bi : BlockchainInfo)
       (up : Nat) (binfo : BlockInfo) (bs : BlockStats)
       (f2 f3 f5 f20 : EstimateSmartFee) (q120 q1 : ℚ)
       (bans : List BanEntry) (tips : List ChainTip) (mp : MempoolInfo)
       (nt : NetTotals) (vs : List String),
      RpcOk rpc ni bi up binfo bs f2 f3 f5 f20 q120 q1 bans tips mp nt →
      ni.warnings = .stringArray vs →
      (get_metrics rpc s).2.warnings = s.warnings + (vs.length : ℚ)) ∧
    (∀ (rpc : Rpc) (s : Sink), s.warnings ≤ (get_metrics rpc s).2.warnings) := by
  refine ⟨?_, ?_, ?_, ?_⟩
  · intro rpc s ni bi up binfo bs f2 f3 f5 f20 q120 q1 bans tips mp nt h hw
    simp [get_metrics, h.network_info, h.blockchain_info, h.uptime_ok,
      h.block_info, h.block_stats, h.fee2, h.fee3, h.fee5, h.fee20,
      h.hash120, h.hash1, h.banned, h.chain_tips, h.mempool, h.net_totals,
      foldl_applyBan, hw]
    rfl
  · intro rpc s ni bi up binfo bs f2 f3 f5 f20 q120 q1 bans tips mp nt v h
      hw hv
    have hne : v.isEmpty = false := by
      by_contra hb
      rw [Bool.not_eq_false] at hb
      exact hv ((String.isEmpty_iff v).mp hb)
    simp [get_metrics, h.network_info, h.blockchain_info, h.uptime_ok,
      h.block_info, h.block_stats, h.fee2, h.fee3, h.fee5, h.fee20,
      h.hash120, h.hash1, h.banned, h.chain_tips, h.mempool, h.net_totals,
      foldl_applyBan, hw, hne]
  · intro rpc s ni bi up binfo bs f2 f3 f5 f20 q120 q1 bans tips mp nt vs h
      hw
    simp [get_metrics, h.network_info, h.blockchain_info, h.uptime_ok,
      h.block_info, h.block_stats, h.fee2, h.fee3, h.fee5, h.fee20,
      h.hash120, h.hash1, h.banned, h.chain_tips, h.mempool, h.net_totals,
      foldl_applyBan, hw]
  · intro rpc s
    rcases h1 : rpc.get_network_info with e | ni
    · simp [get_metrics, h1]
    rcases h2 : rpc.get_blockchain_info with e | bi
    · simp [get_metrics, h1, h2]
    rcases h3 : rpc.uptime with e | up
    · simp [get_metrics, h1, h2, h3]
    rcases h4 : rpc.get_block_info bi.best_block_hash with e | binfo
    · simp [get_metrics, h1, h2, h3, h4]
    rcases h5 : rpc.get_block_stats binfo.height with e | bs
    · simp [get_metrics, h1, h2, h3, h4, h5]
    have hle : ∀ t : ℚ, t ≤ (match ni.warnings with
        | .string value => if ¬ value.isEmpty then t + 1 else t
        | .stringArray values => t + (values.length : ℚ)) := by
      intro t
      rcases ni.warnings with v | vs
      · dsimp only
        split
        · exact le_add_of_nonneg_right zero_le_one
        · exact le_refl t
      · exact le_add_of_nonneg_right (Nat.cast_nonneg _)
    rcases h6 : rpc.estimate_smart_fee 2 with e | f2
    · simp only [get_metrics, h1, h2, h3, h4, h5, h6]
      exact hle s.warnings
    rcases h7 : rpc.estimate_smart_fee 3 with e | f3
    · simp only [get_metrics, h1, h2, h3, h4, h5, h6, h7]
      exact hle s.warnings
    rcases h8 : rpc.estimate_smart_fee 5 with e | f5
    · simp only [get_metrics, h1, h2, h3, h4, h5, h6, h7, h8]
      exact hle s.warnings
    rcases h9 : rpc.estimate_smart_fee 20 with e | f20
    · simp only [get_metrics, h1, h2, h3, h4, h5, h6, h7, h8, h9]
      exact hle s.warnings
    rcases h10 : rpc.get_network_hash_ps 120 with e | q120
    · simp only [get_metrics, h1, h2, h3, h4, h5, h6, h7, h8, h9, h10]
      exact hle s.warnings
    rcases h11 : rpc.get_network_hash_ps 1 with e | q1
    · simp only [get_metrics, h1, h2, h3, h4, h5, h6, h7, h8, h9, h10, h11]
      exact hle s.warnings
    rcases h12 : rpc.list_banned with e | bans
    · simp only [get_metrics, h1, h2, h3, h4, h5, h6, h7, h8, h9, h10, h11,
        h12, foldl_applyBan]
      exact hle s.warnings
    rcases h13 : rpc.get_chain_tips with e | tips
    · simp only [get_metrics, h1, h2, h3, h4, h5, h6, h7, h8, h9, h10, h11,
        h12, h13, foldl_applyBan]
      exact hle s.warnings
    rcases h14 : rpc.get_mempool_info with e | mp
    · simp only [get_metrics, h1, h2, h3, h4, h5, h6, h7, h8, h9, h10, h11,
        h12, h13, h14, foldl_applyBan]
      exact hle s.warnings
    rcases h15 : rpc.get_net_totals with e | nt
    · simp only [get_metrics, h1, h2, h3, h4, h5, h6, h7, h8, h9, h10, h11,
        h12, h13, h14, h15, foldl_applyBan]
      exact hle s.warnings
    simp only [get_metrics, h1, h2, h3, h4, h5, h6, h7, h8, h9, h10, h11,
      h12, h13, h14, h15, foldl_applyBan]
    exact hle s.warnings

/-- C2 witness: the empty single string of rpcB moves the counter by 0, the
non-empty single string of rpcA by 1, the three-string list of rpcC by 3,
and the counter does not decrease on a rpcA invocation, all from sink1
(whose counter starts at 2). -/
theorem spec_c2_witness :
    ((get_metrics rpcB sink1).2.warnings = sink1.warnings) ∧
    ((get_metrics rpcA sink1).2.warnings = sink1.warnings + 1) ∧
    ((get_metrics rpcC sink1).2.warnings
      = sink1.warnings + ((["w1", "w2", "w3"] : List String).length : ℚ)) ∧
    (sink1.warnings ≤ (get_metrics rpcA sink1).2.warnings) :=
  ⟨spec_c2.1 rpcB sink1 niB biA 3600 binfoA bsA ⟨none⟩ ⟨some 4⟩ ⟨none⟩
      ⟨some 6⟩ 500 77 [] tipsA mpB ntA (by constructor <;> rfl) rfl,
   spec_c2.2.1 rpcA sink1 niA biA 3600 binfoA bsA ⟨some 25⟩ ⟨none⟩ ⟨some 10⟩
      ⟨none⟩ 500 77 [banA, banB] tipsA mpA ntA "warn"
      (by constructor <;> rfl) rfl (by decide),
   spec_c2.2.2.1 rpcC sink1 niC biA 3600 binfoA bsA ⟨some 25⟩ ⟨none⟩
      ⟨some 10⟩ ⟨none⟩ 500 77 [banA, banB] tipsA mpA ntA ["w1", "w2", "w3"]
      (by constructor <;> rfl) rfl,
   spec_c2.2.2.2 rpcA sink1⟩

/-- C3: per fee horizon (2, 3, 5, 20), a successful collection sets the
per-horizon gauge to the present fee rate in its integer smallest-unit
(satoshi) representation, and leaves the gauge at its prior value when the
rate is absent (first eight conjuncts); and a failure of any single
horizon's call (each of the four, last four conjuncts) aborts the entire
collection with that error. -/
theorem spec_c3 :
    (∀ (rpc : Rpc) (s : Sink) (ni : NetworkInfo) (bi : BlockchainInfo)
       (up : Nat) (binfo : BlockInfo) (bs : BlockStats)
       (f2 f3 f5 f20 : EstimateSmartFee) (q120 q1 : ℚ)
       (bans : List BanEntry) (tips : List ChainTip) (mp : MempoolInfo)
       (nt : NetTotals) (r : Amount),
      RpcOk rpc ni bi up binfo bs f2 f3 f5 f20 q120 q1 bans tips mp nt →
      f2.fee_rate = some r →
      (get_metrics rpc s).2.smart_fee_2 = (r.to_sat : ℚ)) ∧
    (∀ (rpc : Rpc) (s : Sink) (ni : NetworkInfo) (bi : BlockchainInfo)
       (up : Nat) (binfo : BlockInfo) (bs : BlockStats)
       (f2 f3 f5 f20 : EstimateSmartFee) (q120 q1 : ℚ)
       (bans : List BanEntry) (tips : List ChainTip) (mp : MempoolInfo)
       (nt : NetTotals),
      RpcOk rpc ni bi up binfo bs f2 f3 f5 f20 q120 q1 bans tips mp nt →
      f2.fee_rate = none →
      (get_metrics rpc s).2.smart_fee_2 = s.smart_fee_2) ∧
    (∀ (rpc : Rpc) (s : Sink) (ni : NetworkInfo) (bi : BlockchainInfo)
       (up : Nat) (binfo : BlockInfo) (bs : BlockStats)
       (f2 f3 f5 f20 : EstimateSmartFee) (q120 q1 : ℚ)
       (bans : List BanEntry) (tips : List ChainTip) (mp : MempoolInfo)
       (nt : NetTotals) (r : Amount),
      RpcOk rpc ni bi up binfo bs f2 f3 f5 f20 q120 q1 bans tips mp nt →
      f3.fee_rate = some r →
      (get_metrics rpc s).2.smart_fee_3 = (r.to_sat : ℚ)) ∧
    (∀ (rpc : Rpc) (s : Sink) (ni : NetworkInfo) (bi : BlockchainInfo)
       (up : Nat) (binfo : BlockInfo) (bs : BlockStats)
       (f2 f3 f5 f20 : EstimateSmartFee) (q120 q1 : ℚ)
       (bans : List BanEntry) (tips : List ChainTip) (mp : MempoolInfo)
       (nt : NetTotals),
      RpcOk rpc ni bi up binfo bs f2 f3 f5 f20 q120 q1 bans tips mp nt →
      f3.fee_rate = none →
      (get_metrics rpc s).2.smart_fee_3 = s.smart_fee_3) ∧
    (∀ (rpc : Rpc) (s : Sink) (ni : NetworkInfo) (bi : BlockchainInfo)
       (up : Nat) (binfo : BlockInfo) (bs : BlockStats)
       (f2 f3 f5 f20 : EstimateSmartFee) (q120 q1 : ℚ)
       (bans : List BanEntry) (tips : List ChainTip) (mp : MempoolInfo)
       (nt : NetTotals) (r : Amount),
      RpcOk rpc ni bi up binfo bs f2 f3 f5 f20 q120 q1 bans tips mp nt →
      f5.fee_rate = some r →
      (get_metrics rpc s).2.smart_fee_5 = (r.to_sat : ℚ)) ∧
    (∀ (rpc : Rpc) (s : Sink) (ni : NetworkInfo) (bi : BlockchainInfo)
       (up : Nat) (binfo : BlockInfo) (bs : BlockStats)
       (f2 f3 f5 f20 : EstimateSmartFee) (q120 q1 : ℚ)
       (bans : List BanEntry) (tips : List ChainTip) (mp : MempoolInfo)
       (nt : NetTotals),
      RpcOk rpc ni bi up binfo bs f2 f3 f5 f20 q120 q1 bans tips mp nt →
      f5.fee_rate = none →
      (get_metrics rpc s).2.smart_fee_5 = s.smart_fee_5) ∧
    (∀ (rpc : Rpc) (s : Sink) (ni : NetworkInfo) (bi : BlockchainInfo)
       (up : Nat) (binfo : BlockInfo) (bs : BlockStats)
       (f2 f3 f5 f20 : EstimateSmartFee) (q120 q1 : ℚ)
       (bans : List BanEntry) (tips : List ChainTip) (mp : MempoolInfo)
       (nt : NetTotals) (r : Amount),
      RpcOk rpc ni bi up binfo bs f2 f3 f5 f20 q120 q1 bans tips mp nt →
      f20.fee_rate = some r →
      (get_metrics rpc s).2.smart_fee_20 = (r.to_sat : ℚ)) ∧
    (∀ (rpc : Rpc) (s : Sink) (ni : NetworkInfo) (bi : BlockchainInfo)
       (up : Nat) (binfo : BlockInfo) (bs : BlockStats)
       (f2 f3 f5 f20 : EstimateSmartFee) (q120 q1 : ℚ)
       (bans : List BanEntry) (tips : List ChainTip) (mp : MempoolInfo)
       (nt : NetTotals),
      RpcOk rpc ni bi up binfo bs f2 f3 f5 f20 q120 q1 bans tips mp nt →
      f20.fee_rate = none →
      (get_metrics rpc s).2.smart_fee_20 = s.smart_fee_20) ∧
    (∀ (rpc : Rpc) (s : Sink) (ni : NetworkInfo) (bi : BlockchainInfo)
       (up : Nat) (binfo : BlockInfo) (bs : BlockStats) (e : Err),
      rpc.get_network_info = .ok ni →
      rpc.get_blockchain_info = .ok bi →
      rpc.uptime = .ok up →
      rpc.get_block_info bi.best_block_hash = .ok binfo →
      rpc.get_block_stats binfo.height = .ok bs →
      rpc.estimate_smart_fee 2 = .error e →
      (get_metrics rpc s).1 = .error e) ∧
    (∀ (rpc : Rpc) (s : Sink) (ni : NetworkInfo) (bi : BlockchainInfo)
       (up : Nat) (binfo : BlockInfo) (bs : BlockStats)
       (f2 : EstimateSmartFee) (e : Err),
      rpc.get_network_info = .ok ni →
      rpc.get_blockchain_info = .ok bi →
      rpc.uptime = .ok up →
      rpc.get_block_info bi.best_block_hash = .ok binfo →
      rpc.get_block_stats binfo.height = .ok bs →
      rpc.estimate_smart_fee 2 = .ok f2 →
      rpc.estimate_smart_fee 3 = .error e →
      (get_metrics rpc s).1 = .error e) ∧
    (∀ (rpc : Rpc) (s : Sink) (ni : NetworkInfo) (bi : BlockchainInfo)
       (up : Nat) (binfo : BlockInfo) (bs : BlockStats)
       (f2 f3 : EstimateSmartFee) (e : Err),
      rpc.get_network_info = .ok ni →
      rpc.get_blockchain_info = .ok bi →
      rpc.uptime = .ok up →
      rpc.get_block_info bi.best_block_hash = .ok binfo →
      rpc.get_block_stats binfo.height = .ok bs →
      rpc.estimate_smart_fee 2 = .ok f2 →
      rpc.estimate_smart_fee 3 = .ok f3 →
      rpc.estimate_smart_fee 5 = .error e →
      (get_metrics rpc s).1 = .error e) ∧
    (∀ (rpc : Rpc) (s : Sink) (ni : NetworkInfo) (bi : BlockchainInfo)
       (up : Nat) (binfo : BlockInfo) (bs : BlockStats)
       (f2 f3 f5 : EstimateSmartFee) (e : Err),
      rpc.get_network_info = .ok ni →
      rpc.get_blockchain_info = .ok bi →
      rpc.uptime = .ok up →
      rpc.get_block_info bi.best_block_hash = .ok binfo →
      rpc.get_block_stats binfo.height = .ok bs →
      rpc.estimate_smart_fee 2 = .ok f2 →
      rpc.estimate_smart_fee 3 = .ok f3 →
      rpc.estimate_smart_fee 5 = .ok f5 →
      rpc.estimate_smart_fee 20 = .error e →
      (get_metrics rpc s).1 = .error e) := by
  refine ⟨?_, ?_, ?_, ?_, ?_, ?_, ?_, ?_, ?_, ?_, ?_, ?_⟩
  · intro rpc s ni bi up binfo bs f2 f3 f5 f20 q120 q1 bans tips mp nt r h hr
    simp [get_metrics, h.network_info, h.blockchain_info, h.uptime_ok,
      h.block_info, h.block_stats, h.fee2, h.fee3, h.fee5, h.fee20,
      h.hash120, h.hash1, h.banned, h.chain_tips, h.mempool, h.net_totals,
      foldl_applyBan, hr]
  · intro rpc s ni bi up binfo bs f2 f3 f5 f20 q120 q1 bans tips mp nt h hr
    simp [get_metrics, h.network_info, h.blockchain_info, h.uptime_ok,
      h.block_info, h.block_stats, h.fee2, h.fee3, h.fee5, h.fee20,
      h.hash120, h.hash1, h.banned, h.chain_tips, h.mempool, h.net_totals,
      foldl_applyBan, hr]
  · intro rpc s ni bi up binfo bs f2 f3 f5 f20 q120 q1 bans tips mp nt r h hr
    simp [get_metrics, h.network_info, h.blockchain_info, h.uptime_ok,
      h.block_info, h.block_stats, h.fee2, h.fee3, h.fee5, h.fee20,
      h.hash120, h.hash1, h.banned, h.chain_tips, h.mempool, h.net_totals,
      foldl_applyBan, hr]
  · intro rpc s ni bi up binfo bs f2 f3 f5 f20 q120 q1 bans tips mp nt h hr
    simp [get_metrics, h.network_info, h.blockchain_info, h.uptime_ok,
      h.block_info, h.block_stats, h.fee2, h.fee3, h.fee5, h.fee20,
      h.hash120, h.hash1, h.banned, h.chain_tips, h.mempool, h.net_totals,
      foldl_applyBan, hr]
  · intro rpc s ni bi up binfo bs f2 f3 f5 f20 q120 q1 bans tips mp nt r h hr
    simp [get_metrics, h.network_info, h.blockchain_info, h.uptime_ok,
      h.block_info, h.block_stats, h.fee2, h.fee3, h.fee5, h.fee20,
      h.hash120, h.hash1, h.banned, h.chain_tips, h.mempool, h.net_totals,
      foldl_applyBan, hr]
  · intro rpc s ni bi up binfo bs f2 f3 f5 f20 q120 q1 bans tips mp nt h hr
    simp [get_metrics, h.network_info, h.blockchain_info, h.uptime_ok,
      h.block_info, h.block_stats, h.fee2, h.fee3, h.fee5, h.fee20,
      h.hash120, h.hash1, h.banned, h.chain_tips, h.mempool, h.net_totals,
      foldl_applyBan, hr]
  · intro rpc s ni bi up binfo bs f2 f3 f5 f20 q120 q1 bans tips mp nt r h hr
    simp [get_metrics, h.network_info, h.blockchain_info, h.uptime_ok,
      h.block_info, h.block_stats, h.fee2, h.fee3, h.fee5, h.fee20,
      h.hash120, h.hash1, h.banned, h.chain_tips, h.mempool, h.net_totals,
      foldl_applyBan, hr]
  · intro rpc s ni bi up binfo bs f2 f3 f5 f20 q120 q1 bans tips mp nt h hr
    simp [get_metrics, h.network_info, h.blockchain_info, h.uptime_ok,
      h.block_info, h.block_stats, h.fee2, h.fee3, h.fee5, h.fee20,
      h.hash120, h.hash1, h.banned, h.chain_tips, h.mempool, h.net_totals,
      foldl_applyBan, hr]
  · intro rpc s ni bi up binfo bs e h1 h2 h3 h4 h5 h6
    simp [get_metrics, h1, h2, h3, h4, h5, h6]
  · intro rpc s ni bi up binfo bs f2 e h1 h2 h3 h4 h5 h6 h7
    simp [get_metrics, h1, h2, h3, h4, h5, h6, h7]
  · intro rpc s ni bi up binfo bs f2 f3 e h1 h2 h3 h4 h5 h6 h7 h8
    simp [get_metrics, h1, h2, h3, h4, h5, h6, h7, h8]
  · intro rpc s ni bi up binfo bs f2 f3 f5 e h1 h2 h3 h4 h5 h6 h7 h8 h9
    simp [get_metrics, h1, h2, h3, h4, h5, h6, h7, h8, h9]

/-- C3 witness: rpcA has rates for horizons 2 and 5 and none for 3 and 20;
rpcB has none for 2 and 5 and rates for 3 and 20; and each of the four
single-horizon failures of rpcFailFee aborts its collection. All from sink1,
whose fee gauges carry non-zero priors. -/
theorem spec_c3_witness :
    ((get_metrics rpcA sink1).2.smart_fee_2 = ((25 : Amount).to_sat : ℚ)) ∧
    ((get_metrics rpcB sink1).2.smart_fee_2 = sink1.smart_fee_2) ∧
    ((get_metrics rpcB sink1).2.smart_fee_3 = ((4 : Amount).to_sat : ℚ)) ∧
    ((get_metrics rpcA sink1).2.smart_fee_3 = sink1.smart_fee_3) ∧
    ((get_metrics rpcA sink1).2.smart_fee_5 = ((10 : Amount).to_sat : ℚ)) ∧
    ((get_metrics rpcB sink1).2.smart_fee_5 = sink1.smart_fee_5) ∧
    ((get_metrics rpcB sink1).2.smart_fee_20 = ((6 : Amount).to_sat : ℚ)) ∧
    ((get_metrics rpcA sink1).2.smart_fee_20 = sink1.smart_fee_20) ∧
    ((get_metrics (rpcFailFee 2) sink1).1 = .error "fee down") ∧
    ((get_metrics (rpcFailFee 3) sink1).1 = .error "fee down") ∧
    ((get_metrics (rpcFailFee 5) sink1).1 = .error "fee down") ∧
    ((get_metrics (rpcFailFee 20) sink1).1 = .error "fee down") :=
  ⟨spec_c3.1 rpcA sink1 niA biA 3600 binfoA bsA ⟨some 25⟩ ⟨none⟩ ⟨some 10⟩
      ⟨none⟩ 500 77 [banA, banB] tipsA mpA ntA 25 (by constructor <;> rfl)
      rfl,
   spec_c3.2.1 rpcB sink1 niB biA 3600 binfoA bsA ⟨none⟩ ⟨some 4⟩ ⟨none⟩
      ⟨some 6⟩ 500 77 [] tipsA mpB ntA (by constructor <;> rfl) rfl,
   spec_c3.2.2.1 rpcB sink1 niB biA 3600 binfoA bsA ⟨none⟩ ⟨some 4⟩ ⟨none⟩
      ⟨some 6⟩ 500 77 [] tipsA mpB ntA 4 (by constructor <;> rfl) rfl,
   spec_c3.2.2.2.1 rpcA sink1 niA biA 3600 binfoA bsA ⟨some 25⟩ ⟨none⟩
      ⟨some 10⟩ ⟨none⟩ 500 77 [banA, banB] tipsA mpA ntA
      (by constructor <;> rfl) rfl,
   spec_c3.2.2.2.2.1 rpcA sink1 niA biA 3600 binfoA bsA ⟨some 25⟩ ⟨none⟩
      ⟨some 10⟩ ⟨none⟩ 500 77 [banA, banB] tipsA mpA ntA 10
      (by constructor <;> rfl) rfl,
   spec_c3.2.2.2.2.2.1 rpcB sink1 niB biA 3600 binfoA bsA ⟨none⟩ ⟨some 4⟩
      ⟨none⟩ ⟨some 6⟩ 500 77 [] tipsA mpB ntA (by constructor <;> rfl) rfl,
   spec_c3.2.2.2.2.2.2.1 rpcB sink1 niB biA 3600 binfoA bsA ⟨none⟩ ⟨some 4⟩
      ⟨none⟩ ⟨some 6⟩ 500 77 [] tipsA mpB ntA 6 (by constructor <;> rfl)
      rfl,
   spec_c3.2.2.2.2.2.2.2.1 rpcA sink1 niA biA 3600 binfoA bsA ⟨some 25⟩
      ⟨none⟩ ⟨some 10⟩ ⟨none⟩ 500 77 [banA, banB] tipsA mpA ntA
      (by constructor <;> rfl) rfl,
   spec_c3.2.2.2.2.2.2.2.2.1 (rpcFailFee 2) sink1 niA biA 3600 binfoA bsA
      "fee down" rfl rfl rfl rfl rfl rfl,
   spec_c3.2.2.2.2.2.2.2.2.2.1 (rpcFailFee 3) sink1 niA biA 3600 binfoA bsA
      ⟨some 25⟩ "fee down" rfl rfl rfl rfl rfl rfl rfl,
   spec_c3.2.2.2.2.2.2.2.2.2.2.1 (rpcFailFee 5) sink1 niA biA 3600 binfoA
      bsA ⟨some 25⟩ ⟨none⟩ "fee down" rfl rfl rfl rfl rfl rfl rfl rfl,
   spec_c3.2.2.2.2.2.2.2.2.2.2.2 (rpcFailFee 20) sink1 niA biA 3600 binfoA
      bsA ⟨some 25⟩ ⟨none⟩ ⟨some 10⟩ "fee down" rfl rfl rfl rfl rfl rfl rfl
      rfl rfl⟩

/-- C4: a successful collection sets the total-peer gauge to
NetworkInfo.connections, sets the inbound and outbound connection gauges to
their field values exactly when the optional fields are present, and leaves
each of them completely unchanged when its field is absent. -/
theorem spec_c4 :
    (∀ (rpc : Rpc) (s : Sink) (ni : NetworkInfo) (bi : BlockchainInfo)
       (up : Nat) (binfo : BlockInfo) (bs : BlockStats)
       (f2 f3 f5 f20 : EstimateSmartFee) (q120 q1 : ℚ)
       (bans : List BanEntry) (tips : List ChainTip) (mp : MempoolInfo)
       (nt : NetTotals),
      RpcOk rpc ni bi up binfo bs f2 f3 f5 f20 q120 q1 bans tips mp nt →
      (get_metrics rpc s).2.peers = (ni.connections : ℚ)) ∧
    (∀ (rpc : Rpc) (s : Sink) (ni : NetworkInfo) (bi : BlockchainInfo)
       (up : Nat) (binfo : BlockInfo) (bs : BlockStats)
       (f2 f3 f5 f20 : EstimateSmartFee) (q120 q1 : ℚ)
       (bans : List BanEntry) (tips : List ChainTip) (mp : MempoolInfo)
       (nt : NetTotals) (c : Nat),
      RpcOk rpc ni bi up binfo bs f2 f3 f5 f20 q120 q1 bans tips mp nt →
      ni.connections_in = some c →
      (get_metrics rpc s).2.conn_in = (c : ℚ)) ∧
    (∀ (rpc : Rpc) (s : Sink) (ni : NetworkInfo) (bi : BlockchainInfo)
       (up : Nat) (binfo : BlockInfo) (bs : BlockStats)
       (f2 f3 f5 f20 : EstimateSmartFee) (q120 q1 : ℚ)
       (bans : List BanEntry) (tips : List ChainTip) (mp : MempoolInfo)
       (nt : NetTotals),
      RpcOk rpc ni bi up binfo bs f2 f3 f5 f20 q120 q1 bans tips mp nt →
      ni.connections_in = none →
      (get_metrics rpc s).2.conn_in = s.conn_in) ∧
    (∀ (rpc : Rpc) (s : Sink) (ni : NetworkInfo) (bi : BlockchainInfo)
       (up : Nat) (binfo : BlockInfo) (bs : BlockStats)
       (f2 f3 f5 f20 : EstimateSmartFee) (q120 q1 : ℚ)
       (bans : List BanEntry) (tips : List ChainTip) (mp : MempoolInfo)
       (nt : NetTotals) (c : Nat),
      RpcOk rpc ni bi up binfo bs f2 f3 f5 f20 q120 q1 bans tips mp nt →
      ni.connections_out = some c →
      (get_metrics rpc s).2.conn_out = (c : ℚ)) ∧
    (∀ (rpc : Rpc) (s : Sink) (ni : NetworkInfo) (bi : BlockchainInfo)
       (up : Nat) (binfo : BlockInfo) (bs : BlockStats)
       (f2 f3 f5 f20 : EstimateSmartFee) (q120 q1 : ℚ)
       (bans : List BanEntry) (tips : List ChainTip) (mp : MempoolInfo)
       (nt : NetTotals),
      RpcOk rpc ni bi up binfo bs f2 f3 f5 f20 q120 q1 bans tips mp nt →
      ni.connections_out = none →
      (get_metrics rpc s).2.conn_out = s.conn_out) := by
  refine ⟨?_, ?_, ?_, ?_, ?_⟩
  · intro rpc s ni bi up binfo bs f2 f3 f5 f20 q120 q1 bans tips mp nt h
    simp [get_metrics, h.network_info, h.blockchain_info, h.uptime_ok,
      h.block_info, h.block_stats, h.fee2, h.fee3, h.fee5, h.fee20,
      h.hash120, h.hash1, h.banned, h.chain_tips, h.mempool, h.net_totals,
      foldl_applyBan]
  · intro rpc s ni bi up binfo bs f2 f3 f5 f20 q120 q1 bans tips mp nt c h
      hc
    simp [get_metrics, h.network_info, h.blockchain_info, h.uptime_ok,
      h.block_info, h.block_stats, h.fee2, h.fee3, h.fee5, h.fee20,
      h.hash120, h.hash1, h.banned, h.chain_tips, h.mempool, h.net_totals,
      foldl_applyBan, hc]
  · intro rpc s ni bi up binfo bs f2 f3 f5 f20 q120 q1 bans tips mp nt h hc
    simp [get_metrics, h.network_info, h.blockchain_info, h.uptime_ok,
      h.block_info, h.block_stats, h.fee2, h.fee3, h.fee5, h.fee20,
      h.hash120, h.hash1, h.banned, h.chain_tips, h.mempool, h.net_totals,
      foldl_applyBan, hc]
  · intro rpc s ni bi up binfo bs f2 f3 f5 f20 q120 q1 bans tips mp nt c h
      hc
    simp [get_metrics, h.network_info, h.blockchain_info, h.uptime_ok,
      h.block_info, h.block_stats, h.fee2, h.fee3, h.fee5, h.fee20,
      h.hash120, h.hash1, h.banned, h.chain_tips, h.mempool, h.net_totals,
      foldl_applyBan, hc]
  · intro rpc s ni bi up binfo bs f2 f3 f5 f20 q120 q1 bans tips mp nt h hc
    simp [get_metrics, h.network_info, h.blockchain_info, h.uptime_ok,
      h.block_info, h.block_stats, h.fee2, h.fee3, h.fee5, h.fee20,
      h.hash120, h.hash1, h.banned, h.chain_tips, h.mempool, h.net_totals,
      foldl_applyBan, hc]

/-- C4 witness: rpcA carries both optional connection counts (4 inbound, 5
outbound) and its collection sets peers to 9 and the two gauges to those
counts; rpcB carries neither and its collection leaves both gauges at the
non-zero priors of sink1. -/
theorem spec_c4_witness :
    ((get_metrics rpcA sink1).2.peers = (niA.connections : ℚ)) ∧
    ((get_metrics rpcA sink1).2.conn_in = ((4 : Nat) : ℚ)) ∧
    ((get_metrics rpcB sink1).2.conn_in = sink1.conn_in) ∧
    ((get_metrics rpcA sink1).2.conn_out = ((5 : Nat) : ℚ)) ∧
    ((get_metrics rpcB sink1).2.conn_out = sink1.conn_out) :=
  ⟨spec_c4.1 rpcA sink1 niA biA 3600 binfoA bsA ⟨some 25⟩ ⟨none⟩ ⟨some 10⟩
      ⟨none⟩ 500 77 [banA, banB] tipsA mpA ntA (by constructor <;> rfl),
   spec_c4.2.1 rpcA sink1 niA biA 3600 binfoA bsA ⟨some 25⟩ ⟨none⟩ ⟨some 10⟩
      ⟨none⟩ 500 77 [banA, banB] tipsA mpA ntA 4 (by constructor <;> rfl)
      rfl,
   spec_c4.2.2.1 rpcB sink1 niB biA 3600 binfoA bsA ⟨none⟩ ⟨some 4⟩ ⟨none⟩
      ⟨some 6⟩ 500 77 [] tipsA mpB ntA (by constructor <;> rfl) rfl,
   spec_c4.2.2.2.1 rpcA sink1 niA biA 3600 binfoA bsA ⟨some 25⟩ ⟨none⟩
      ⟨some 10⟩ ⟨none⟩ 500 77 [banA, banB] tipsA mpA ntA 5
      (by constructor <;> rfl) rfl,
   spec_c4.2.2.2.2 rpcB sink1 niB biA 3600 binfoA bsA ⟨none⟩ ⟨some 4⟩ ⟨none⟩
      ⟨some 6⟩ 500 77 [] tipsA mpB ntA (by constructor <;> rfl) rfl⟩

/-- C5: a successful collection sets the unbroadcast-transaction-count gauge
to the mempool field's value when present, and to exactly 0 when the field
is absent (unwrap_or_default), unlike the connection gauges, which absence
leaves untouched. -/
theorem spec_c5 :
    (∀ (rpc : Rpc) (s : Sink) (ni : NetworkInfo) (bi : BlockchainInfo)
       (up : Nat) (binfo : BlockInfo) (bs : BlockStats)
       (f2 f3 f5 f20 : EstimateSmartFee) (q120 q1 : ℚ)
       (bans : List BanEntry) (tips : List ChainTip) (mp : MempoolInfo)
       (nt : NetTotals) (u : Nat),
      RpcOk rpc ni bi up binfo bs f2 f3 f5 f20 q120 q1 bans tips mp nt →
      mp.unbroadcast_count = some u →
      (get_metrics rpc s).2.mempool_unbroadcast = (u : ℚ)) ∧
    (∀ (rpc : Rpc) (s : Sink) (ni : NetworkInfo) (bi : BlockchainInfo)
       (up : Nat) (binfo : BlockInfo) (bs : BlockStats)
       (f2 f3 f5 f20 : EstimateSmartFee) (q120 q1 : ℚ)
       (bans : List BanEntry) (tips : List ChainTip) (mp : MempoolInfo)
       (nt : NetTotals),
      RpcOk rpc ni bi up binfo bs f2 f3 f5 f20 q120 q1 bans tips mp nt →
      mp.unbroadcast_count = none →
      (get_metrics rpc s).2.mempool_unbroadcast = 0) := by
  constructor
  · intro rpc s ni bi up binfo bs f2 f3 f5 f20 q120 q1 bans tips mp nt u h
      hu
    simp [get_metrics, h.network_info, h.blockchain_info, h.uptime_ok,
      h.block_info, h.block_stats, h.fee2, h.fee3, h.fee5, h.fee20,
      h.hash120, h.hash1, h.banned, h.chain_tips, h.mempool, h.net_totals,
      foldl_applyBan, hu]
  · intro rpc s ni bi up binfo bs f2 f3 f5 f20 q120 q1 bans tips mp nt h hu
    simp [get_metrics, h.network_info, h.blockchain_info, h.uptime_ok,
      h.block_info, h.block_stats, h.fee2, h.fee3, h.fee5, h.fee20,
      h.hash120, h.hash1, h.banned, h.chain_tips, h.mempool, h.net_totals,
      foldl_applyBan, hu]

/-- C5 witness: mpA carries unbroadcast_count 7 and rpcA's collection sets
the gauge to 7; mpB omits it and rpcB's collection sets the gauge to 0 even
though sink1 held the prior value 5 there. -/
theorem spec_c5_witness :
    ((get_metrics rpcA sink1).2.mempool_unbroadcast = ((7 : Nat) : ℚ)) ∧
    ((get_metrics rpcB sink1).2.mempool_unbroadcast = 0) :=
  ⟨spec_c5.1 rpcA sink1 niA biA 3600 binfoA bsA ⟨some 25⟩ ⟨none⟩ ⟨some 10⟩
      ⟨none⟩ 500 77 [banA, banB] tipsA mpA ntA 7 (by constructor <;> rfl)
      rfl,
   spec_c5.2 rpcB sink1 niB biA 3600 binfoA bsA ⟨none⟩ ⟨some 4⟩ ⟨none⟩
      ⟨some 6⟩ 500 77 [] tipsA mpB ntA (by constructor <;> rfl) rfl⟩

/-- The label tuples of the series a ban list with pairwise-distinct
addresses produces are themselves pairwise distinct. -/
theorem nodup_banKeys (bans : List BanEntry)
    (hnodup : (bans.map BanEntry.address).Nodup) (f : BanEntry → ℚ) :
    ((bans.map (fun b => ([b.address, reasonLabel], f b))).map Prod.fst).Nodup := by
  have h1 : (bans.map (fun b => ([b.address, reasonLabel], f b))).map Prod.fst
      = (bans.map BanEntry.address).map (fun a => [a, reasonLabel]) := by
    simp [List.map_map, Function.comp]
  rw [h1]
  exact List.Nodup.map (fun a b hab => by simpa using hab) hnodup

/-- C6 (amended): starting from a sink holding no ban series, for every ban
list of N entries whose addresses are pairwise distinct, a successful
collection produces exactly 2N label-distinct series: the ban-creation
vector and the ban-expiry vector each hold exactly one series per entry, in
list order, labeled with that entry's address and the literal reason string
"manually added", and within each vector the N label tuples are pairwise
distinct (the two vectors are distinct metric names, so the total is 2N).
The original claim, for arbitrary ban lists, fails when two entries share an
address: see the counterexample. -/
theorem spec_c6 :
    ∀ (rpc : Rpc) (s : Sink) (ni : NetworkInfo) (bi : BlockchainInfo)
      (up : Nat) (binfo : BlockInfo) (bs : BlockStats)
      (f2 f3 f5 f20 : EstimateSmartFee) (q120 q1 : ℚ)
      (bans : List BanEntry) (tips : List ChainTip) (mp : MempoolInfo)
      (nt : NetTotals),
    RpcOk rpc ni bi up binfo bs f2 f3 f5 f20 q120 q1 bans tips mp nt →
    (bans.map BanEntry.address).Nodup →
    s.ban_created = [] →
    s.banned_until = [] →
    ((get_metrics rpc s).2.ban_created
       = bans.map (fun b => ([b.address, reasonLabel], (b.ban_created : ℚ)))) ∧
    ((get_metrics rpc s).2.banned_until
       = bans.map (fun b => ([b.address, reasonLabel], (b.banned_until : ℚ)))) ∧
    ((get_metrics rpc s).2.ban_created.length = bans.length) ∧
    ((get_metrics rpc s).2.banned_until.length = bans.length) ∧
    (((get_metrics rpc s).2.ban_created.map Prod.fst).Nodup) ∧
    (((get_metrics rpc s).2.banned_until.map Prod.fst).Nodup) := by
  intro rpc s ni bi up binfo bs f2 f3 f5 f20 q120 q1 bans tips mp nt h
    hnodup hbc hbu
  have hcreated : (get_metrics rpc s).2.ban_created
      = bans.map (fun b => ([b.address, reasonLabel], (b.ban_created : ℚ))) := by
    simp only [get_metrics, h.network_info, h.blockchain_info, h.uptime_ok,
      h.block_info, h.block_stats, h.fee2, h.fee3, h.fee5, h.fee20,
      h.hash120, h.hash1, h.banned, h.chain_tips, h.mempool, h.net_totals,
      foldl_applyBan, hbc]
    simpa using foldl_setLabeled_fresh (fun b => (b.ban_created : ℚ)) bans
      [] hnodup (by simp)
  have huntil : (get_metrics rpc s).2.banned_until
      = bans.map (fun b => ([b.address, reasonLabel], (b.banned_until : ℚ))) := by
    simp only [get_metrics, h.network_info, h.blockchain_info, h.uptime_ok,
      h.block_info, h.block_stats, h.fee2, h.fee3, h.fee5, h.fee20,
      h.hash120, h.hash1, h.banned, h.chain_tips, h.mempool, h.net_totals,
      foldl_applyBan, hbu]
    simpa using foldl_setLabeled_fresh (fun b => (b.banned_until : ℚ)) bans
      [] hnodup (by simp)
  refine ⟨hcreated, huntil, ?_, ?_, ?_, ?_⟩
  · rw [hcreated]; simp
  · rw [huntil]; simp
  · rw [hcreated]; exact nodup_banKeys bans hnodup _
  · rw [huntil]; exact nodup_banKeys bans hnodup _

/-- C6 witness: rpcA's ban list has the two distinct addresses 1.2.3.4 and
5.6.7.8; from the fresh sink sink0 its collection produces exactly the four
series (two per vector) with the literal reason label. -/
theorem spec_c6_witness :
    ((get_metrics rpcA sink0).2.ban_created
       = [banA, banB].map
           (fun b => ([b.address, reasonLabel], (b.ban_created : ℚ)))) ∧
    ((get_metrics rpcA sink0).2.banned_until
       = [banA, banB].map
           (fun b => ([b.address, reasonLabel], (b.banned_until : ℚ)))) ∧
    ((get_metrics rpcA sink0).2.ban_created.length = 2) ∧
    ((get_metrics rpcA sink0).2.banned_until.length = 2) ∧
    (((get_metrics rpcA sink0).2.ban_created.map Prod.fst).Nodup) ∧
    (((get_metrics rpcA sink0).2.banned_until.map Prod.fst).Nodup) := by
  have h := spec_c6 rpcA sink0 niA biA 3600 binfoA bsA ⟨some 25⟩ ⟨none⟩
    ⟨some 10⟩ ⟨none⟩ 500 77 [banA, banB] tipsA mpA ntA
    (by constructor <;> rfl) (by decide) rfl rfl
  simpa using h

/-- C6 counterexample: the claim as stated fails for ban lists with repeated
addresses. rpcDup returns a two-entry ban list whose entries share the
address 9.9.9.9; its successful collection from the fresh sink leaves one
series in each ban vector (the second entry overwrote the first), so 2
label-distinct series exist in total, not 2N = 4. -/
theorem spec_c6_counterexample :
    (rpcDup.list_banned = .ok
      [{ address := "9.9.9.9", ban_created := 100, banned_until := 200 },
       { address := "9.9.9.9", ban_created := 300, banned_until := 400 }]) ∧
    ((get_metrics rpcDup sink0).1 = .ok ()) ∧
    ((get_metrics rpcDup sink0).2.ban_created.length = 1) ∧
    ((get_metrics rpcDup sink0).2.banned_until.length = 1) ∧
    (1 + 1 ≠ 2 * 2) := by
  refine ⟨rfl, rfl, ?_, ?_, by decide⟩ <;> rfl

/-- C7: the latest-block step resolves the best-block hash to a height via
get_block_info, fetches block stats for exactly that height (the success
hypotheses record this dataflow), and sets the eight latest-block gauges,
converting total value and total fee to the decimal currency unit (to_btc);
a failure of either the block-info call (second conjunct) or the
block-stats call (third conjunct) aborts the whole collection with that
error. -/
theorem spec_c7 :
    (∀ (rpc : Rpc) (s : Sink) (ni : NetworkInfo) (bi : BlockchainInfo)
       (up : Nat) (binfo : BlockInfo) (bs : BlockStats)
       (f2 f3 f5 f20 : EstimateSmartFee) (q120 q1 : ℚ)
       (bans : List BanEntry) (tips : List ChainTip) (mp : MempoolInfo)
       (nt : NetTotals),
      RpcOk rpc ni bi up binfo bs f2 f3 f5 f20 q120 q1 bans tips mp nt →
      (get_metrics rpc s).2.latest_block_size = (bs.total_size : ℚ) ∧
      (get_metrics rpc s).2.latest_block_txs = (bs.txs : ℚ) ∧
      (get_metrics rpc s).2.latest_block_height = (bs.height : ℚ) ∧
      (get_metrics rpc s).2.latest_block_weight = (bs.total_weight : ℚ) ∧
      (get_metrics rpc s).2.latest_block_inputs = (bs.ins : ℚ) ∧
      (get_metrics rpc s).2.latest_block_outputs = (bs.outs : ℚ) ∧
      (get_metrics rpc s).2.latest_block_value = bs.total_out.to_btc ∧
      (get_metrics rpc s).2.latest_block_fee = bs.total_fee.to_btc) ∧
    (∀ (rpc : Rpc) (s : Sink) (ni : NetworkInfo) (bi : BlockchainInfo)
       (up : Nat) (e : Err),
      rpc.get_network_info = .ok ni →
      rpc.get_blockchain_info = .ok bi →
      rpc.uptime = .ok up →
      rpc.get_block_info bi.best_block_hash = .error e →
      (get_metrics rpc s).1 = .error e) ∧
    (∀ (rpc : Rpc) (s : Sink) (ni : NetworkInfo) (bi : BlockchainInfo)
       (up : Nat) (binfo : BlockInfo) (e : Err),
      rpc.get_network_info = .ok ni →
      rpc.get_blockchain_info = .ok bi →
      rpc.uptime = .ok up →
      rpc.get_block_info bi.best_block_hash = .ok binfo →
      rpc.get_block_stats binfo.height = .error e →
      (get_metrics rpc s).1 = .error e) := by
  refine ⟨?_, ?_, ?_⟩
  · intro rpc s ni bi up binfo bs f2 f3 f5 f20 q120 q1 bans tips mp nt h
    refine ⟨?_, ?_, ?_, ?_, ?_, ?_, ?_, ?_⟩ <;>
      simp [get_metrics, h.network_info, h.blockchain_info, h.uptime_ok,
        h.block_info, h.block_stats, h.fee2, h.fee3, h.fee5, h.fee20,
        h.hash120, h.hash1, h.banned, h.chain_tips, h.mempool, h.net_totals,
        foldl_applyBan]
  · intro rpc s ni bi up e h1 h2 h3 h4
    simp [get_metrics, h1, h2, h3, h4]
  · intro rpc s ni bi up binfo e h1 h2 h3 h4 h5
    simp [get_metrics, h1, h2, h3, h4, h5]

/-- C7 witness: rpcA's collection sets the eight latest-block gauges from
bsA (value 300 and fee 70 satoshi, converted to BTC), and the block-info and
block-stats failures of rpcFailBI and rpcFailBS abort their collections. -/
theorem spec_c7_witness :
    ((get_metrics rpcA sink1).2.latest_block_size = (bsA.total_size : ℚ) ∧
     (get_metrics rpcA sink1).2.latest_block_txs = (bsA.txs : ℚ) ∧
     (get_metrics rpcA sink1).2.latest_block_height = (bsA.height : ℚ) ∧
     (get_metrics rpcA sink1).2.latest_block_weight = (bsA.total_weight : ℚ) ∧
     (get_metrics rpcA sink1).2.latest_block_inputs = (bsA.ins : ℚ) ∧
     (get_metrics rpcA sink1).2.latest_block_outputs = (bsA.outs : ℚ) ∧
     (get_metrics rpcA sink1).2.latest_block_value = bsA.total_out.to_btc ∧
     (get_metrics rpcA sink1).2.latest_block_fee = bsA.total_fee.to_btc) ∧
    ((get_metrics rpcFailBI sink1).1 = .error "bi down") ∧
    ((get_metrics rpcFailBS sink1).1 = .error "bs down") :=
  ⟨spec_c7.1 rpcA sink1 niA biA 3600 binfoA bsA ⟨some 25⟩ ⟨none⟩ ⟨some 10⟩
      ⟨none⟩ 500 77 [banA, banB] tipsA mpA ntA (by constructor <;> rfl),
   spec_c7.2.1 rpcFailBI sink1 niA biA 3600 "bi down" rfl rfl rfl rfl,
   spec_c7.2.2 rpcFailBS sink1 niA biA 3600 binfoA "bs down" rfl rfl rfl
      rfl rfl⟩

/-- C8: every inbound request that is not a GET of the /metrics path gets a
404 response with an empty body and an unchanged sink, uniformly in the
remote client: the right-hand side does not mention rpc, so no remote call
and no collector step can influence it (the collector is never invoked). -/
theorem spec_c8 :
    ∀ (req : Request) (rpc : Rpc) (s : Sink),
    req.method ≠ HttpMethod.GET ∨ req.path ≠ "/metrics" →
    serve_req req rpc s
      = .ok ({ status := 404, contentType := none, body := .empty }, s) := by
  intro req rpc s h
  unfold serve_req
  rw [if_pos h]

/-- C8 witness: a POST to /metrics against the healthy client, and a GET of
the root path against the client whose blockchain-info call fails, both get
the empty-bodied 404 with the sink untouched. -/
theorem spec_c8_witness :
    (serve_req { method := .other "POST", path := "/metrics", query := none }
        rpcA sink1
      = .ok ({ status := 404, contentType := none, body := .empty },
          sink1)) ∧
    (serve_req { method := .GET, path := "/", query := none } rpcFailBC sink1
      = .ok ({ status := 404, contentType := none, body := .empty },
          sink1)) :=
  ⟨spec_c8 { method := .other "POST", path := "/metrics", query := none }
      rpcA sink1 (Or.inl (by decide)),
   spec_c8 { method := .GET, path := "/", query := none } rpcFailBC sink1
      (Or.inr (by decide))⟩

/-- C9: a GET of the metrics path always gets a response (the handler's
Result is ok in every branch, first conjunct); on collector success the
response is 200 with the rendered sink contents and the text encoder's
declared content-type (second conjunct); on collector failure it is 404
with a plain-text body equal to the error's display string (third
conjunct). -/
theorem spec_c9 :
    (∀ (req : Request) (rpc : Rpc) (s : Sink),
      req.method = HttpMethod.GET → req.path = "/metrics" →
      ∃ (r : Response) (s₁ : Sink), serve_req req rpc s = .ok (r, s₁)) ∧
    (∀ (req : Request) (rpc : Rpc) (s : Sink) (s₁ : Sink),
      req.method = HttpMethod.GET → req.path = "/metrics" →
      get_metrics rpc s = (.ok (), s₁) →
      serve_req req rpc s
        = .ok ({ status := 200, contentType := some textEncoderFormatType,
                 body := .rendered s₁ }, s₁)) ∧
    (∀ (req : Request) (rpc : Rpc) (s : Sink) (e : Err) (s₁ : Sink),
      req.method = HttpMethod.GET → req.path = "/metrics" →
      get_metrics rpc s = (.error e, s₁) →
      serve_req req rpc s
        = .ok ({ status := 404, contentType := some "text/plain",
                 body := .text e }, s₁)) := by
  refine ⟨?_, ?_, ?_⟩
  · intro req rpc s hm hp
    unfold serve_req
    rw [if_neg (by simp [hm, hp])]
    rcases hgm : get_metrics rpc s with ⟨res, s₁⟩
    rcases res with e | u
    · exact ⟨_, _, rfl⟩
    · exact ⟨_, _, rfl⟩
  · intro req rpc s s₁ hm hp hgm
    unfold serve_req
    rw [if_neg (by simp [hm, hp]), hgm]
  · intro req rpc s e s₁ hm hp hgm
    unfold serve_req
    rw [if_neg (by simp [hm, hp]), hgm]

/-- C9 witness: the healthy client's scrape returns 200 with the rendered
updated sink, the scrape against the failing blockchain-info client returns
404 with the body boom, and both are ok-valued responses. -/
theorem spec_c9_witness :
    (∃ (r : Response) (s₁ : Sink),
      serve_req { method := .GET, path := "/metrics", query := none } rpcA
        sink1 = .ok (r, s₁)) ∧
    (serve_req { method := .GET, path := "/metrics", query := none } rpcA
        sink1
      = .ok ({ status := 200, contentType := some textEncoderFormatType,
               body := .rendered ((get_metrics rpcA sink1).2) },
          (get_metrics rpcA sink1).2)) ∧
    (serve_req { method := .GET, path := "/metrics", query := none }
        rpcFailBC sink1
      = .ok ({ status := 404, contentType := some "text/plain",
               body := .text "boom" }, sink1)) :=
  ⟨spec_c9.1 { method := .GET, path := "/metrics", query := none } rpcA
      sink1 rfl rfl,
   spec_c9.2.1 { method := .GET, path := "/metrics", query := none } rpcA
      sink1 ((get_metrics rpcA sink1).2) rfl rfl rfl,
   spec_c9.2.2 { method := .GET, path := "/metrics", query := none }
      rpcFailBC sink1 "boom" sink1 rfl rfl rfl⟩

/-- C10 (implicit): route matching reads only the method and the URI path,
so a GET of /metrics carrying a query string is accepted as a scrape: it
behaves identically to the query-less scrape (first conjunct) and invokes
the collector, yielding 200 with the rendered sink on success (second
conjunct) and the 404 error response on failure (third conjunct). -/
theorem spec_c10 :
    (∀ (rpc : Rpc) (s : Sink) (q : String),
      serve_req { method := .GET, path := "/metrics", query := some q } rpc s
        = serve_req { method := .GET, path := "/metrics", query := none }
            rpc s) ∧
    (∀ (rpc : Rpc) (s : Sink) (q : String) (s₁ : Sink),
      get_metrics rpc s = (.ok (), s₁) →
      serve_req { method := .GET, path := "/metrics", query := some q } rpc s
        = .ok ({ status := 200, contentType := some textEncoderFormatType,
                 body := .rendered s₁ }, s₁)) ∧
    (∀ (rpc : Rpc) (s : Sink) (q : String) (e : Err) (s₁ : Sink),
      get_metrics rpc s = (.error e, s₁) →
      serve_req { method := .GET, path := "/metrics", query := some q } rpc s
        = .ok ({ status := 404, contentType := some "text/plain",
                 body := .text e }, s₁)) := by
  refine ⟨?_, ?_, ?_⟩
  · intro rpc s q
    unfold serve_req
    rfl
  · intro rpc s q s₁ hgm
    unfold serve_req
    rw [if_neg (by simp), hgm]
  · intro rpc s q e s₁ hgm
    unfold serve_req
    rw [if_neg (by simp), hgm]

/-- C10 witness: a GET /metrics carrying the query string x=1 scrapes like
the query-less request, returns 200 with the rendered sink for the healthy
client, and the 404 error body for the failing one. -/
theorem spec_c10_witness :
    (serve_req { method := .GET, path := "/metrics", query := some "x=1" }
        rpcA sink1
      = serve_req { method := .GET, path := "/metrics", query := none }
          rpcA sink1) ∧
    (serve_req { method := .GET, path := "/metrics", query := some "x=1" }
        rpcA sink1
      = .ok ({ status := 200, contentType := some textEncoderFormatType,
               body := .rendered ((get_metrics rpcA sink1).2) },
          (get_metrics rpcA sink1).2)) ∧
    (serve_req { method := .GET, path := "/metrics", query := some "x=1" }
        rpcFailBC sink1
      = .ok ({ status := 404, contentType := some "text/plain",
               body := .text "boom" }, sink1)) :=
  ⟨spec_c10.1 rpcA sink1 "x=1",
   spec_c10.2.1 rpcA sink1 "x=1" ((get_metrics rpcA sink1).2) rfl,
   spec_c10.2.2 rpcFailBC sink1 "x=1" "boom" sink1 rfl⟩

end BitcoinExporter
